import Mathlib

/-!
Verification of the FiScrape core (`FiScrape_Core.py`) against its
natural-language specification.

The development shallowly embeds the pure/algorithmic content of the source:

* strings stay strings (`String`), tables are lists of rows of cell strings
  (pandas DataFrames built from the raw scraped row lists; the pandas
  rectangular NaN padding is not modelled, and every concrete instance below
  uses rectangular tables);
* Python floats are modelled as exact rationals (`ℚ`); the one genuinely
  real-valued operation, the compound-growth root `(c/p) ** (1/period)`,
  is modelled on `ℝ` with `Real.rpow`;
* Python exceptions are modelled with `Except PyErr`; `round(x, 2)` is
  modelled as round-half-up to two decimals (CPython uses round-half-even on
  binary floats; the two agree away from exact ties and no statement below
  exercises a tie).
-/

attribute [local semireducible] Rat.mul Rat.add Rat.sub Rat.inv

deriving instance DecidableEq for Except

/-- Python exception kinds that the embedded code can raise. -/
inductive PyErr
  | indexError
  | typeError
  | valueError
  | attributeError
  | keyError
deriving DecidableEq

/-- Substring containment, the model of Python's `pat in s` on strings (and of
`pandas.Series.str.contains` for the regex-free patterns used by the source). -/
def strContains (s pat : String) : Bool := decide (pat.data <:+: s.data)

/-- A single leading run of whitespace removed, model of one side of
`str.strip`. -/
def dropWs (l : List Char) : List Char := l.dropWhile Char.isWhitespace

/-- Model of Python's `str.strip()`: leading and trailing whitespace removed. -/
def pyStrip (s : String) : String :=
  String.mk ((dropWs s.data).reverse.dropWhile Char.isWhitespace).reverse

/-- Replace every non-overlapping occurrence of `pat` (nonempty), scanning
left to right, with fuel bounding the scan length. -/
def replaceCharsAux (pat rep : List Char) : ℕ → List Char → List Char
  | 0, l => l
  | _ + 1, [] => []
  | fuel + 1, c :: rest =>
    if pat ≠ [] ∧ pat.isPrefixOf (c :: rest) then
      rep ++ replaceCharsAux pat rep fuel ((c :: rest).drop pat.length)
    else c :: replaceCharsAux pat rep fuel rest

/-- Model of Python's `str.replace(pat, rep)` for a nonempty pattern. -/
def pyReplace (s pat rep : String) : String :=
  String.mk (replaceCharsAux pat.data rep.data s.data.length s.data)

/-- Numeric value of a digit list, most significant first. -/
def natOfDigits (l : List Char) : ℕ :=
  l.foldl (fun acc c => 10 * acc + (c.toNat - 48)) 0

/-- Whether every character is a decimal digit. -/
def allDigits (l : List Char) : Bool := l.all Char.isDigit

/-- Parse an unsigned decimal numeral, optionally with a fractional part
(`"5"`, `"5."`, `".5"`, `"1200.01"`).  Mirrors the inputs Python's `float`
accepts among the cell formats the scraper produces; anything else is a
parse failure (Python raises `ValueError`). -/
def parseUnsignedChars (l : List Char) : Option ℚ :=
  match l.splitOn '.' with
  | [a] =>
    if a ≠ [] ∧ allDigits a then some (natOfDigits a) else none
  | [a, b] =>
    if (a ≠ [] ∨ b ≠ []) ∧ allDigits a ∧ allDigits b then
      some ((natOfDigits a : ℚ) + (natOfDigits b : ℚ) / (10 ^ b.length))
    else none
  | _ => none

/-- Parse a signed decimal numeral; model of Python's `float(s)` on the cell
strings reaching it. -/
def parseDecimal (s : String) : Option ℚ :=
  match s.data with
  | [] => none
  | '-' :: rest => (parseUnsignedChars rest).map (fun q => -q)
  | '+' :: rest => parseUnsignedChars rest
  | l => parseUnsignedChars l

/-- Round half-up to an integer scaled by 100: the model of Python's
`round(x, 2)` (see the module comment about ties). -/
def round2Q (q : ℚ) : ℚ := ((round (q * 100) : ℤ) : ℚ) / 100

/-- Decimal rendering of a nonnegative rational whose denominator divides 100,
in Python float `str` form (`"5.0"`, `"5.1"`, `"5.07"`). -/
def fmtAbs (q : ℚ) : String :=
  let m : ℕ := (q * 100).num.toNat
  let w := m / 100
  let f := m % 100
  if f = 0 then Nat.repr w ++ ".0"
  else if f % 10 = 0 then Nat.repr w ++ "." ++ Nat.repr (f / 10)
  else if f < 10 then Nat.repr w ++ ".0" ++ Nat.repr f
  else Nat.repr w ++ "." ++ Nat.repr f

/-- Python `str` of a float that is an exact multiple of `1/100` (every value
the source prints has been passed through `round(·, 2)`). -/
def formatFloat (q : ℚ) : String :=
  if q < 0 then "-" ++ fmtAbs (-q) else fmtAbs q

/-- Model of `str(round(x, self.round_int))` with the default
`round_int = 2`. -/
def fmtRound2 (q : ℚ) : String := formatFloat (round2Q q)

/-- The placeholder strings that `Ticker.set_attr` maps to `None`
(`FiScrape_Core.py`, line 123); note the exact-equality test there, in
contrast to `search_parameter`'s substring test. -/
def set_norm (value : Option String) : Option String :=
  match value with
  | some v => if v = "--" ∨ v = "-- " ∨ v = "---" then none else some v
  | none => none

/-- A raw tabular section: ordered rows of string cells. -/
abbrev Table := List (List String)

/-- The placeholder tokens `search_parameter` tests by substring containment
(`FiScrape_Core.py`, line 1110). -/
def fs_placeholders : List String := ["--", "-- ", "---"]

/-- Whether a cell contains one of the `search_parameter` placeholder
tokens. -/
def isPlaceholderCell (cell : String) : Bool :=
  fs_placeholders.any (fun x => strContains cell x)

/-- The rows whose `search_column` cell contains `parameter`
(`df_example[df_example[search_column].str.contains(parameter, na=False)]`);
a row with no such cell is a pandas NaN and does not match. -/
def matchingRows (df : Table) (parameter : String) (search_column : ℕ) : Table :=
  df.filter (fun row =>
    match row.get? search_column with
    | some cell => strContains cell parameter
    | none => false)

/-- The alias loop of `Analyzer.search_parameter`: for each parameter in
order, take the first matching row; a missing output cell raises
`IndexError`; a placeholder cell falls through to the next alias; a hit
returns the stripped cell. -/
def search_parameter_go (df : Table) (parameters : List String)
    (output_column search_column : ℕ) : Except PyErr (Option String) :=
  match parameters with
  | [] => .ok none
  | parameter :: rest =>
    match (matchingRows df parameter search_column).head? with
    | none => search_parameter_go df rest output_column search_column
    | some row =>
      match row.get? output_column with
      | none => .error .indexError
      | some cell =>
        if isPlaceholderCell cell then
          search_parameter_go df rest output_column search_column
        else .ok (some (pyStrip cell))

/-- `Analyzer.search_parameter` (`FiScrape_Core.py`, lines 1072-1115).
`none` for the table models a `None` attribute, on which the `.empty` access
raises `AttributeError`; an empty table returns absent without raising. -/
def search_parameter (df_example : Option Table) (parameters : List String)
    (output_column search_column : ℕ) : Except PyErr (Option String) :=
  match df_example with
  | none => .error .attributeError
  | some df =>
    if df.isEmpty then .ok none
    else search_parameter_go df parameters output_column search_column

/-- `Analyzer.join_comma` (`FiScrape_Core.py`, lines 1146-1165): `None` and the
exact placeholder strings yield absent; otherwise commas are stripped and the
string is parsed as a float, raising `ValueError` when unparsable. -/
def join_comma (comma_number : Option String) : Except PyErr (Option ℚ) :=
  match comma_number with
  | none => .ok none
  | some s =>
    if s = "--" ∨ s = "-- " ∨ s = "---" then .ok none
    else
      match parseDecimal (pyReplace s "," "") with
      | some q => .ok (some q)
      | none => .error .valueError

/-- One magnitude-suffix branch of `abbr_to_number`: drop the suffix letter,
parse, scale; an unparsable remainder raises `ValueError`. -/
def abbrScale (s suffix : String) (scale : ℚ) : Except PyErr (Option (ℚ ⊕ String)) :=
  match parseDecimal (pyReplace s suffix "") with
  | some q => .ok (some (.inl (q * scale)))
  | none => .error .valueError

/-- `Analyzer.abbr_to_number` (`FiScrape_Core.py`, lines 1118-1144): a k/M/B/T
suffix scales the parsed prefix by `10^3/10^6/10^9/10^12`; a string with no
recognized suffix is returned unchanged (`Sum.inr`), which is what later
arithmetic on it will choke on. -/
def abbr_to_number (number_string : Option String) : Except PyErr (Option (ℚ ⊕ String)) :=
  match number_string with
  | none => .ok none
  | some s =>
    if strContains s "k" then abbrScale s "k" 1000
    else if strContains s "M" then abbrScale s "M" (10 ^ 6)
    else if strContains s "B" then abbrScale s "B" (10 ^ 9)
    else if strContains s "T" then abbrScale s "T" (10 ^ 12)
    else .ok (some (.inr s))

/-- The pre-rounding growth percentage of `Analyzer.calculate_growth_rate`:
compound (`((c/p) ** (1/period) - 1) * 100`) for `period > 1`, simple
(`((c-p)/p) * 100`) otherwise.  Real-valued because of the fractional
power. -/
noncomputable def growthVal (c p : ℚ) (period : ℕ) : ℝ :=
  if 1 < period then (((c : ℝ) / (p : ℝ)) ^ ((1 : ℝ) / (period : ℝ)) - 1) * 100
  else (((c : ℝ) - (p : ℝ)) / (p : ℝ)) * 100

/-- Round a real half-up to two decimals, the model of `round(x, 2)` inside
`calculate_growth_rate`. -/
noncomputable def pyRound2 (x : ℝ) : ℚ := ((round (x * 100) : ℤ) : ℚ) / 100

/-- Render the optional sign-transition marker appended in parentheses. -/
def markerSuffix : Option String → String
  | none => ""
  | some m => " (" ++ m ++ ")"

/-- `Analyzer.calculate_growth_rate` (`FiScrape_Core.py`, lines 1167-1215).
Absent when either operand is absent or `previous == 0`; opposite signs are
computed on absolute values with a sign-transition marker; the result is the
rounded percentage string.  The source's `except (ZeroDivisionError,
ValueError)` guard is unreachable here: the divisor is nonzero past the guard
and the power base `c/p` is nonnegative after the absolute-value step, so the
embedding is total on the remaining inputs. -/
noncomputable def calculate_growth_rate (current_value previous_value : Option ℚ)
    (period : ℕ) : Option String :=
  match current_value, previous_value with
  | some c, some p =>
    if p = 0 then none
    else
      let sign_change : Option String :=
        if c * p < 0 then some (if 0 < c then "- -> +" else "+ -> -") else none
      let c2 := if c * p < 0 then |c| else c
      let p2 := if c * p < 0 then |p| else p
      some (formatFloat (pyRound2 (growthVal c2 p2 period)) ++ "%" ++ markerSuffix sign_change)
  | _, _ => none

/-- The guard around each growth-rate call in `Analyzer.analyze`
(e.g. lines 1480-1484): compute only when the current value is present and the
previous value is neither absent nor zero. -/
noncomputable def growth_guard (cur prev : Option ℚ) (period : ℕ) : Option String :=
  match cur, prev with
  | some c, some p => if p = 0 then none else calculate_growth_rate (some c) (some p) period
  | _, _ => none

/-- Truthiness of a Python value that is `None`, a float, or a string
(values produced by `abbr_to_number`). -/
def truthyU : Option (ℚ ⊕ String) → Bool
  | none => false
  | some (.inl q) => decide (q ≠ 0)
  | some (.inr s) => decide (s ≠ "")

/-- Python `x != 0` on such a value (`None != 0` and `str != 0` are both
`True`). -/
def neqZeroU : Option (ℚ ⊕ String) → Bool
  | some (.inl q) => decide (q ≠ 0)
  | _ => true

/-- The primary price-to-cash-flow computation (`FiScrape_Core.py`, lines
1472-1476): `if market_cap_float and operating_cash_flow and
operating_cash_flow != 0`.  When the truthiness guard passes but an operand is
a raw passthrough string from `abbr_to_number`, the division raises
`TypeError`. -/
def ptcf_calc (market_cap_float operating_cash_flow : Option (ℚ ⊕ String)) :
    Except PyErr (Option String) :=
  if truthyU market_cap_float && truthyU operating_cash_flow &&
      neqZeroU operating_cash_flow then
    match market_cap_float, operating_cash_flow with
    | some (.inl m), some (.inl o) => .ok (some (fmtRound2 (m / o)))
    | _, _ => .error .typeError
  else .ok none

/-- Quick ratio (`FiScrape_Core.py`, lines 1508-1513): requires current
assets and inventory present and current liabilities present and nonzero. -/
def quick_ratio_calc (current_assets current_liabilities inventory : Option ℚ) :
    Option String :=
  match current_assets, current_liabilities, inventory with
  | some ca, some cl, some inv => if cl = 0 then none else some (fmtRound2 ((ca - inv) / cl))
  | _, _, _ => none

/-- Interest coverage (`FiScrape_Core.py`, lines 1515-1519). -/
def interest_coverage_calc (ebit interest_expense : Option ℚ) : Option String :=
  match ebit, interest_expense with
  | some e, some i => if i = 0 then none else some (fmtRound2 (e / i))
  | _, _ => none

/-- Debt-to-equity (`FiScrape_Core.py`, lines 1521-1525). -/
def debt_to_equity_calc (total_debt stockholders_equity : Option ℚ) : Option String :=
  match total_debt, stockholders_equity with
  | some d, some s => if s = 0 then none else some (fmtRound2 (d / s))
  | _, _ => none

/-- Return on invested capital (`FiScrape_Core.py`, lines 1527-1532). -/
def roic_calc (ebit tax_provision invested_capital : Option ℚ) : Option String :=
  match ebit, tax_provision, invested_capital with
  | some e, some t, some ic =>
    if ic = 0 then none else some (fmtRound2 ((e - t) / ic * 100) ++ "%")
  | _, _, _ => none

/-- Price-to-book fallback (`FiScrape_Core.py`, lines 1550-1553): only
attempted when the primary value is `None`; a passthrough string market cap
makes the division raise `TypeError`. -/
def ptb_fb (price_to_book : Option String) (market_cap_float : Option (ℚ ⊕ String))
    (tangible_book_value : Option ℚ) : Except PyErr (Option String) :=
  match price_to_book, market_cap_float, tangible_book_value with
  | none, some (.inl m), some t =>
    if t = 0 then .ok none else .ok (some (fmtRound2 (m / (t * 1000))))
  | none, some (.inr _), some t => if t = 0 then .ok none else .error .typeError
  | pb, _, _ => .ok pb

/-- Price-to-sales fallback (`FiScrape_Core.py`, lines 1555-1558). -/
def pts_fb (price_to_sales : Option String) (market_cap_float : Option (ℚ ⊕ String))
    (total_revenue : Option ℚ) : Except PyErr (Option String) :=
  match price_to_sales, market_cap_float, total_revenue with
  | none, some (.inl m), some t =>
    if t = 0 then .ok none else .ok (some (fmtRound2 (m / (t * 1000))))
  | none, some (.inr _), some t => if t = 0 then .ok none else .error .typeError
  | ps, _, _ => .ok ps

/-- Price-to-earnings fallback (`FiScrape_Core.py`, lines 1560-1563). -/
def pte_fb (price_to_earnings : Option String) (market_cap_float : Option (ℚ ⊕ String))
    (net_income : Option ℚ) : Except PyErr (Option String) :=
  match price_to_earnings, market_cap_float, net_income with
  | none, some (.inl m), some n =>
    if n = 0 then .ok none else .ok (some (fmtRound2 (m / (n * 1000))))
  | none, some (.inr _), some n => if n = 0 then .ok none else .error .typeError
  | pe, _, _ => .ok pe

/-- Price-to-cash-flow fallback (`FiScrape_Core.py`, lines 1565-1568); the
operating cash flow may itself be a passthrough string, which the
multiplication/division turns into a `TypeError`. -/
def ptcf_fb (price_to_cash_flow : Option String) (market_cap_float : Option (ℚ ⊕ String))
    (operating_cash_flow : Option (ℚ ⊕ String)) : Except PyErr (Option String) :=
  match price_to_cash_flow, market_cap_float, operating_cash_flow with
  | none, some (.inl m), some (.inl o) =>
    if o = 0 then .ok none else .ok (some (fmtRound2 (m / (o * 1000))))
  | none, some (.inr _), some (.inl o) => if o = 0 then .ok none else .error .typeError
  | none, some _, some (.inr _) => .error .typeError
  | pc, _, _ => .ok pc

/-- Current-ratio fallback (`FiScrape_Core.py`, lines 1570-1573). -/
def cr_fb (current_ratio : Option String) (current_assets current_liabilities : Option ℚ) :
    Option String :=
  match current_ratio, current_assets, current_liabilities with
  | none, some a, some l => if l = 0 then none else some (fmtRound2 (a / l))
  | cr, _, _ => cr

/-- Return-on-assets fallback (`FiScrape_Core.py`, lines 1575-1578). -/
def roa_fb (return_on_assets : Option String) (net_income total_assets : Option ℚ) :
    Option String :=
  match return_on_assets, net_income, total_assets with
  | none, some n, some t => if t = 0 then none else some (fmtRound2 (n / t * 100) ++ "%")
  | r, _, _ => r

/-- Return-on-equity fallback (`FiScrape_Core.py`, lines 1580-1583). -/
def roe_fb (return_on_equity : Option String) (net_income stockholders_equity : Option ℚ) :
    Option String :=
  match return_on_equity, net_income, stockholders_equity with
  | none, some n, some s => if s = 0 then none else some (fmtRound2 (n / s * 100) ++ "%")
  | r, _, _ => r

/-- Profit-margin fallback (`FiScrape_Core.py`, lines 1585-1588).  Its trigger
is `profit_margin == '0.00%'` — the literal string, not absence: an absent
profit margin is never recomputed, and a resolved `"0.00%"` is overwritten. -/
def pm_fb (profit_margin : Option String) (net_income total_revenue : Option ℚ) :
    Option String :=
  match profit_margin, net_income, total_revenue with
  | some "0.00%", some n, some t =>
    if t = 0 then some "0.00%" else some (fmtRound2 (n / t * 100) ++ "%")
  | pm, _, _ => pm

/-- Direct cell access `df[col][row]` on a possibly absent frame, used for
`latest_10Q`/`latest_10K` (`FiScrape_Core.py`, lines 1594-1595); a missing
frame raises `TypeError`, a missing column or row raises `KeyError`. -/
def getCell (df : Option Table) (row col : ℕ) : Except PyErr String :=
  match df with
  | none => .error .typeError
  | some rows =>
    match rows.get? row with
    | none => .error .keyError
    | some r =>
      match r.get? col with
      | none => .error .keyError
      | some cell => .ok cell

/-- One growth-metric block of `Analyzer.analyze` (e.g. lines 1353-1373 for
total revenue): try the 3-year offset at column 5; on `IndexError` fall back
to the 2-year offset at column 4; the third component records which offset
(3 or 2) was used — a local variable of the source, never stored on the
entity record. -/
def growth_block (df : Option Table) (label : String) (period : ℕ) :
    Except PyErr (Option ℚ × Option ℚ × ℕ) :=
  match (do
      let c ← search_parameter df [label] period 0
      let cv ← join_comma c
      let p5 ← search_parameter df [label] 5 0
      let pv ← join_comma p5
      pure (cv, pv) : Except PyErr (Option ℚ × Option ℚ)) with
  | .ok (cv, pv) => .ok (cv, pv, 3)
  | .error .indexError => do
    let c ← search_parameter df [label] period 0
    let cv ← join_comma c
    let p4 ← search_parameter df [label] 4 0
    let pv ← join_comma p4
    pure (cv, pv, 2)
  | .error e => .error e

/-- The diluted-EPS cascade step (`FiScrape_Core.py`, lines 1535-1538): only
when the statistics value is absent is the income statement searched. -/
def de_fallback_step (df_income_statement : Option Table) (period : ℕ)
    (diluted_eps : Option String) : Except PyErr (Option String) :=
  if diluted_eps.isNone then
    search_parameter df_income_statement ["Diluted EPS"] period 0
  else pure diluted_eps

/-- The operating-cash-flow cascade step (`FiScrape_Core.py`, lines
1541-1545): only when the statistics value is absent is the cash-flow
statement searched (and the result parsed with `join_comma`). -/
def ocf_fallback_step (df_cash_flow : Option Table) (period : ℕ)
    (operating_cash_flow : Option (ℚ ⊕ String)) : Except PyErr (Option (ℚ ⊕ String)) :=
  if operating_cash_flow.isNone then do
    let s ← search_parameter df_cash_flow ["Operating Cash Flow"] period 0
    let q ← join_comma s
    pure (q.map Sum.inl)
  else pure operating_cash_flow

/-- The six DataFrames a fundamentals worker hands to `Analyzer.analyze` for
one ticker; `none` models a `None` attribute (tab not present). -/
structure FundInput where
  df_summary : Option Table
  df_statistics_valuations : Option Table
  df_statistics_highlights : Option Table
  df_income_statement : Option Table
  df_balance_sheet : Option Table
  df_cash_flow : Option Table
deriving DecidableEq

/-- Python's `df is None or df.empty`. -/
def tblAbsent : Option Table → Bool
  | none => true
  | some rows => rows.isEmpty

/-- Every value bound by the detailed-analysis branch of `Analyzer.analyze`
(`FiScrape_Core.py`, lines 1311-1595) before the final `set_attr`, in source
order.  Fields suffixed `0` are values before their fallback step.  The
`*_period` fields are the 3-year/2-year offsets chosen by the growth blocks —
local variables of the source that are never stored on the entity record. -/
structure DVals where
  forward_dividend_and_yield : Option String
  market_cap : Option String
  eps : Option String
  diluted_eps0 : Option String
  price_to_book0 : Option String
  price_to_sales0 : Option String
  price_to_earnings0 : Option String
  current_ratio0 : Option String
  return_on_assets0 : Option String
  return_on_equity0 : Option String
  profit_margin0 : Option String
  market_cap_float : Option (ℚ ⊕ String)
  operating_cash_flow0 : Option (ℚ ⊕ String)
  total_revenue : Option ℚ
  total_revenue_prev : Option ℚ
  total_revenue_period : ℕ
  operating_income : Option ℚ
  operating_income_prev : Option ℚ
  operating_income_period : ℕ
  net_income : Option ℚ
  net_income_prev : Option ℚ
  net_income_period : ℕ
  diluted_eps_fs : Option ℚ
  diluted_eps_fs_prev : Option ℚ
  diluted_eps_fs_period : ℕ
  current_assets : Option ℚ
  current_liabilities : Option ℚ
  inventory : Option ℚ
  EBIT : Option ℚ
  interest_expense : Option ℚ
  total_debt : Option ℚ
  stockholders_equity : Option ℚ
  tax_provision : Option ℚ
  invested_capital : Option ℚ
  tangible_book_value : Option ℚ
  total_assets : Option ℚ
  price_to_cash_flow0 : Option String
  diluted_eps : Option String
  operating_cash_flow : Option (ℚ ⊕ String)
  price_to_book : Option String
  price_to_sales : Option String
  price_to_earnings : Option String
  price_to_cash_flow : Option String
  latest_10Q : String
  latest_10K : String
deriving DecidableEq

/-- The effectful part of the detailed-analysis branch of `Analyzer.analyze`
(`FiScrape_Core.py`, lines 1311-1595), in source order: every search and
conversion (each of which can raise), the growth blocks with their
`IndexError` fallbacks, the primary price-to-cash-flow computation, and the
cascade fallbacks of the diluted EPS, operating cash flow and
market-cap-based metrics.  The purely arithmetic derivations are applied
afterwards by `recFromVals`, which is sound because they cannot raise. -/
def gatherPhase (period : ℕ) (inp : FundInput) : Except PyErr DVals := do
  let forward_dividend_and_yield ← search_parameter inp.df_summary ["Forward Dividend & Yield"] 1 0
  let market_cap ← search_parameter inp.df_summary ["Market Cap"] 1 0
  let eps ← search_parameter inp.df_summary ["EPS"] 1 0
  let diluted_eps0 ← search_parameter inp.df_statistics_highlights ["Diluted EPS"] 1 0
  let price_to_book0 ← search_parameter inp.df_statistics_valuations ["Price/Book"] period 0
  let price_to_sales0 ← search_parameter inp.df_statistics_valuations ["Price/Sales"] period 0
  let price_to_earnings0 ← search_parameter inp.df_statistics_valuations ["Trailing P/E"] period 0
  let current_ratio0 ← search_parameter inp.df_statistics_highlights ["Current Ratio"] 1 0
  let return_on_assets0 ← search_parameter inp.df_statistics_highlights ["Return on Assets"] 1 0
  let return_on_equity0 ← search_parameter inp.df_statistics_highlights ["Return on Equity"] 1 0
  let profit_margin0 ← search_parameter inp.df_statistics_highlights ["Profit Margin"] 1 0
  let mc_str ← search_parameter inp.df_summary ["Market Cap"] 1 0
  let market_cap_float ← abbr_to_number mc_str
  let ocf_str ← search_parameter inp.df_statistics_highlights ["Operating Cash Flow"] 1 0
  let operating_cash_flow0 ← abbr_to_number ocf_str
  let (total_revenue, total_revenue_prev, total_revenue_period) ←
    growth_block inp.df_income_statement "Total Revenue" period
  let (operating_income, operating_income_prev, operating_income_period) ←
    growth_block inp.df_income_statement "Operating Income" period
  let (net_income, net_income_prev, net_income_period) ←
    growth_block inp.df_income_statement "Net Income" period
  let (diluted_eps_fs, diluted_eps_fs_prev, diluted_eps_fs_period) ←
    growth_block inp.df_income_statement "Diluted EPS" period
  let ca_str ← search_parameter inp.df_balance_sheet ["Current Assets"] period 0
  let current_assets ← join_comma ca_str
  let cl_str ← search_parameter inp.df_balance_sheet ["Current Liabilities"] period 0
  let current_liabilities ← join_comma cl_str
  let inv_str ← search_parameter inp.df_balance_sheet ["Inventory"] period 0
  let inventory ← join_comma inv_str
  let ebit_str ← search_parameter inp.df_income_statement ["EBIT"] period 0
  let EBIT ← join_comma ebit_str
  let ie_str ← search_parameter inp.df_income_statement ["Interest Expense"] period 0
  let interest_expense ← join_comma ie_str
  let td_str ← search_parameter inp.df_balance_sheet ["Total Debt"] period 0
  let total_debt ← join_comma td_str
  let se_str ← search_parameter inp.df_balance_sheet ["Stockholders\x27 Equity"] period 0
  let stockholders_equity ← join_comma se_str
  let tax_str ← search_parameter inp.df_income_statement ["Tax Provision"] period 0
  let tax_provision ← join_comma tax_str
  let ic_str ← search_parameter inp.df_balance_sheet ["Invested Capital"] period 0
  let invested_capital ← join_comma ic_str
  let tbv_str ← search_parameter inp.df_balance_sheet ["Tangible Book Value"] period 0
  let tangible_book_value ← join_comma tbv_str
  let ta_str ← search_parameter inp.df_balance_sheet ["Total Assets"] period 0
  let total_assets ← join_comma ta_str
  let price_to_cash_flow0 ← ptcf_calc market_cap_float operating_cash_flow0
  let diluted_eps ← de_fallback_step inp.df_income_statement period diluted_eps0
  let operating_cash_flow ← ocf_fallback_step inp.df_cash_flow period operating_cash_flow0
  let price_to_book ← ptb_fb price_to_book0 market_cap_float tangible_book_value
  let price_to_sales ← pts_fb price_to_sales0 market_cap_float total_revenue
  let price_to_earnings ← pte_fb price_to_earnings0 market_cap_float net_income
  let price_to_cash_flow ← ptcf_fb price_to_cash_flow0 market_cap_float operating_cash_flow
  let l10q_cell ← getCell inp.df_statistics_valuations 0 2
  let latest_10K ← getCell inp.df_income_statement 0 2
  pure { forward_dividend_and_yield, market_cap, eps, diluted_eps0,
         price_to_book0, price_to_sales0, price_to_earnings0,
         current_ratio0, return_on_assets0, return_on_equity0, profit_margin0,
         market_cap_float, operating_cash_flow0,
         total_revenue, total_revenue_prev, total_revenue_period,
         operating_income, operating_income_prev, operating_income_period,
         net_income, net_income_prev, net_income_period,
         diluted_eps_fs, diluted_eps_fs_prev, diluted_eps_fs_period,
         current_assets, current_liabilities, inventory,
         EBIT, interest_expense, total_debt, stockholders_equity,
         tax_provision, invested_capital, tangible_book_value, total_assets,
         price_to_cash_flow0, diluted_eps, operating_cash_flow,
         price_to_book, price_to_sales, price_to_earnings, price_to_cash_flow,
         latest_10Q := pyStrip l10q_cell, latest_10K }

/-- The per-ticker entity record written by the fundamentals branch of
`Analyzer.analyze` via `Ticker.set_attr`; an attribute never set reads back
as `None` (`Ticker.get_attr`), modelled by the `none` defaults. -/
structure FundRecord where
  summary_availability : Option String := none
  statistics_availability : Option String := none
  fs_availability : Option String := none
  latest_10Q : Option String := none
  latest_10K : Option String := none
  forward_dividend_and_yield : Option String := none
  net_assets : Option String := none
  market_cap : Option String := none
  eps : Option String := none
  diluted_eps : Option String := none
  price_to_book : Option String := none
  price_to_sales : Option String := none
  price_to_earnings : Option String := none
  price_to_cash_flow : Option String := none
  revenue_growth : Option String := none
  operating_income_growth : Option String := none
  net_income_growth : Option String := none
  diluted_eps_growth : Option String := none
  quick_ratio : Option String := none
  current_ratio : Option String := none
  interest_coverage : Option String := none
  debt_to_equity : Option String := none
  return_on_assets : Option String := none
  return_on_equity : Option String := none
  return_on_invested_capital : Option String := none
  profit_margin : Option String := none
  operating_cash_flow : Option (ℚ ⊕ String) := none
  market_cap_float : Option (ℚ ⊕ String) := none
  tangible_book_value : Option ℚ := none
  total_assets : Option ℚ := none
  calculation_mode : Option String := none
deriving DecidableEq

/-- The pure tail of the detailed-analysis branch: the growth-rate strings
(lines 1480-1506), the guarded ratio computations (1508-1532), the pure
fallbacks (1570-1588), and the final `set_attr` (1590-1632) with its
placeholder normalization applied to every string-valued attribute.
`statistics_availability` is not among the attributes this branch sets. -/
noncomputable def recFromVals (period : ℕ) (v : DVals) : FundRecord :=
  { summary_availability := set_norm (some "")
    fs_availability := set_norm (some "")
    latest_10Q := set_norm (some v.latest_10Q)
    latest_10K := set_norm (some v.latest_10K)
    forward_dividend_and_yield := set_norm v.forward_dividend_and_yield
    market_cap := set_norm v.market_cap
    eps := set_norm v.eps
    diluted_eps := set_norm v.diluted_eps
    price_to_book := set_norm v.price_to_book
    price_to_sales := set_norm v.price_to_sales
    price_to_earnings := set_norm v.price_to_earnings
    price_to_cash_flow := set_norm v.price_to_cash_flow
    revenue_growth :=
      set_norm (growth_guard v.total_revenue v.total_revenue_prev v.total_revenue_period)
    operating_income_growth :=
      set_norm (growth_guard v.operating_income v.operating_income_prev v.operating_income_period)
    net_income_growth :=
      set_norm (growth_guard v.net_income v.net_income_prev v.net_income_period)
    diluted_eps_growth :=
      set_norm (growth_guard v.diluted_eps_fs v.diluted_eps_fs_prev v.diluted_eps_fs_period)
    quick_ratio := set_norm (quick_ratio_calc v.current_assets v.current_liabilities v.inventory)
    current_ratio := set_norm (cr_fb v.current_ratio0 v.current_assets v.current_liabilities)
    interest_coverage := set_norm (interest_coverage_calc v.EBIT v.interest_expense)
    debt_to_equity := set_norm (debt_to_equity_calc v.total_debt v.stockholders_equity)
    return_on_assets := set_norm (roa_fb v.return_on_assets0 v.net_income v.total_assets)
    return_on_equity := set_norm (roe_fb v.return_on_equity0 v.net_income v.stockholders_equity)
    return_on_invested_capital := set_norm (roic_calc v.EBIT v.tax_provision v.invested_capital)
    profit_margin := set_norm (pm_fb v.profit_margin0 v.net_income v.total_revenue)
    operating_cash_flow := v.operating_cash_flow
    market_cap_float := v.market_cap_float
    tangible_book_value := v.tangible_book_value
    total_assets := v.total_assets
    calculation_mode := set_norm (some (if period = 2 then "10K" else "TTM")) }

/-- The summary-only branch of `Analyzer.analyze` (`FiScrape_Core.py`, lines
1286-1308): statistics and financial statements unavailable, a few summary
fields resolved, the price-to-earnings search wrapped in its own
`except IndexError`. -/
def analyzeSummaryOnly (inp : FundInput) : Except PyErr FundRecord := do
  let forward_dividend_and_yield ← search_parameter inp.df_summary ["Yield"] 1 0
  let net_assets ← search_parameter inp.df_summary ["Net Assets"] 1 0
  let price_to_earnings ←
    (match search_parameter inp.df_summary ["PE Ratio"] 1 0 with
     | .ok w => .ok w
     | .error .indexError => .ok none
     | .error e => .error e : Except PyErr (Option String))
  pure { summary_availability := set_norm (some "")
         statistics_availability := set_norm (some "x")
         fs_availability := set_norm (some "x")
         forward_dividend_and_yield := set_norm forward_dividend_and_yield
         net_assets := set_norm net_assets
         price_to_earnings := set_norm price_to_earnings }

/-- The fundamentals branch of `Analyzer.analyze` for one ticker
(`FiScrape_Core.py`, lines 1256-1632): no-summary path, summary-only path, or
the detailed path `gatherPhase`/`recFromVals`.  `period` is `self.period`
(1 for TTM, 2 for 10K) and fixes `calculation_mode`. -/
noncomputable def analyze_fund (period : ℕ) (inp : FundInput) : Except PyErr FundRecord :=
  if tblAbsent inp.df_summary then
    .ok { summary_availability := set_norm (some "x")
          statistics_availability := set_norm (some "x")
          fs_availability := set_norm (some "x") }
  else if tblAbsent inp.df_statistics_valuations then
    analyzeSummaryOnly inp
  else
    (gatherPhase period inp).map (recFromVals period)

/-- Which offset the total-revenue growth block of a run chose: 3 when five
historical columns were available, 2 after the `IndexError` fallback.  This
is an observer of the run, not of the produced record. -/
def revenue_offset_used (period : ℕ) (inp : FundInput) : Except PyErr ℕ :=
  (gatherPhase period inp).map (·.total_revenue_period)

/-- The page-acquisition retry loop of `Scraper.fundamentals`
(`FiScrape_Core.py`, lines 513-523): up to `budget` attempts of
`load_and_check_version` (the opaque `check`, indexed by attempt number,
returning `none` on a wrong variant/timeout/renderer exception); every failed
attempt quits and recreates the WebDriver session.  Returns the parsed page
(if any), the number of attempts performed, and the number of session
recreations. -/
def load_retry_aux (check : ℕ → Option α) : ℕ → ℕ → ℕ → Option α × ℕ × ℕ
  | 0, attempts, recreations => (none, attempts, recreations)
  | budget + 1, attempts, recreations =>
    match check attempts with
    | some page => (some page, attempts + 1, recreations)
    | none => load_retry_aux check budget (attempts + 1) (recreations + 1)

/-- The retry loop started with a fresh attempt counter; on a `none` result
the source's `for`-`else` raises, which the caller's `except` turns into
"section unavailable" for this ticker (FAIL, not fatal to the batch). -/
def page_retry_loop (retries : ℕ) (check : ℕ → Option α) : Option α × ℕ × ℕ :=
  load_retry_aux check retries 0 0

/-- The default retry budget of `Scraper.__init__` (`FiScrape_Core.py`,
line 188). -/
def scraper_default_retries : ℕ := 10

/-- `max_processes = floor(multiprocessing.cpu_count() *
max_processes_capacity)` (`FiScrape_Core.py`, line 887); the source applies
no lower clamp. -/
def max_processes (cpu_count : ℕ) (max_processes_capacity : ℚ) : ℤ :=
  ⌊(cpu_count : ℚ) * max_processes_capacity⌋

/-- Consecutive slices `tickers[i:i+m]` for `i in range(0, len(tickers), m)`,
written with the list length as recursion fuel; faithful for `m ≥ 1` (the
only case in which Python's `range` accepts the step). -/
def chunkAux (m : ℕ) : ℕ → List α → List (List α)
  | 0, _ => []
  | _, [] => []
  | fuel + 1, l => l.take m :: chunkAux m fuel (l.drop m)

/-- The batch partition of `Scraper.scrape` (`FiScrape_Core.py`, lines
896-911); a zero `max_processes` makes `range(0, n, 0)` raise
`ValueError`. -/
def scrape_stage_batches (tickers : List α) (max_procs : ℕ) :
    Except PyErr (List (List α)) :=
  if max_procs = 0 then .error .valueError
  else .ok (chunkAux max_procs tickers.length tickers)

/-- Observable scheduler events: `process.start()` and `process.join()` for
the worker of a key, tagged with its batch index. -/
inductive SchedEv (α : Type)
  | start (batch : ℕ) (key : α)
  | join (batch : ℕ) (key : α)
deriving DecidableEq

/-- The batch index of a scheduler event. -/
def evBatch : SchedEv α → ℕ
  | .start b _ => b
  | .join b _ => b

/-- The event trace of the batched loop of `Scraper.scrape`: per batch, first
all starts, then all joins, then the next batch. -/
def schedTraceAux : ℕ → List (List α) → List (SchedEv α)
  | _, [] => []
  | k, b :: bs => b.map (SchedEv.start k) ++ b.map (SchedEv.join k) ++ schedTraceAux (k + 1) bs

/-- The event trace for a key list under a batch size. -/
def schedTrace (tickers : List α) (max_procs : ℕ) : List (SchedEv α) :=
  schedTraceAux 0 (chunkAux max_procs tickers.length tickers)

/-- A CSV row body: field name to cell, `none` modelling NaN. -/
abbrev CsvRow := List (String × Option String)

/-- The value of a field in a row; a missing field and a NaN cell are both
absent (exactly how `combine_first` sees them). -/
def valueAt (row : CsvRow) (field : String) : Option String :=
  (List.lookup field row).join

/-- One cell of a `combine_first` merge: the existing cell when non-absent,
otherwise the new row's value at that column. -/
def combine_cell (newRow : CsvRow) (field : String) (cell : Option String) : Option String :=
  match cell with
  | some v => some v
  | none => valueAt newRow field

/-- `combine_first` on one index key: each cell of the existing row is kept
when non-absent and otherwise filled from the new row; columns only in the
new row are appended. -/
def combine_row (oldRow newRow : CsvRow) : CsvRow :=
  oldRow.map (fun fv => (fv.1, combine_cell newRow fv.1 fv.2))
  ++ newRow.filter (fun fv => (List.lookup fv.1 oldRow).isNone)

/-- The merged row for one existing ticker: combined with the new row when
the new data has this ticker, unchanged otherwise. -/
def merge_entry (df_new : List (String × CsvRow)) (k : String) (r : CsvRow) : CsvRow :=
  match List.lookup k df_new with
  | some nr => combine_row r nr
  | none => r

/-- The append-mode merge of `Exporter.export_to_csv` (`FiScrape_Core.py`,
line 2204): `df_existing.set_index('ticker').combine_first(df_new_data.set_index('ticker'))`
— the existing frame has priority, the new data only fills its holes and adds
new tickers. -/
def export_append_merge (df_existing df_new : List (String × CsvRow)) :
    List (String × CsvRow) :=
  df_existing.map (fun kr => (kr.1, merge_entry df_new kr.1 kr.2))
  ++ df_new.filter (fun kr => (List.lookup kr.1 df_existing).isNone)

/-- `Exporter.export_to_csv` persistence step (`FiScrape_Core.py`, lines
2199-2211): `append` with an existing file merges via `combine_first`; every
other case (mode `write`, or no existing file) writes the new data in
full. -/
def export_to_csv (existing : Option (List (String × CsvRow)))
    (df_new : List (String × CsvRow)) (mode : String) : List (String × CsvRow) :=
  match mode, existing with
  | "append", some df_existing => export_append_merge df_existing df_new
  | _, _ => df_new

/-- What one fundamentals worker has scraped for its ticker before
publishing (`FiScrape_Core.py`, lines 504-663): the raw name/price element
lists and the optional DataFrames. -/
structure FundScraped where
  name : List String
  price : List String
  change_intraday : String × String
  change_afterhours : Option (String × String)
  df_summary : Option Table
  df_statistics_valuations : Option Table
  df_statistics_highlights : Option Table
  df_income_statement : Option Table
  df_balance_sheet : Option Table
  df_cash_flow : Option Table
deriving DecidableEq

/-- The complete per-ticker stage record of the `shared_dict[ticker] = {...}`
assignment (`FiScrape_Core.py`, lines 668-682). -/
structure StageRecord where
  ticker : String
  name : String
  price : Option String
  change_intraday : Option (String × String)
  change_afterhours : Option (String × String)
  df_summary : Option Table
  df_statistics_valuations : Option Table
  df_statistics_highlights : Option Table
  df_income_statement : Option Table
  df_balance_sheet : Option Table
  df_cash_flow : Option Table
deriving DecidableEq

/-- Building the published dict: `name[0]` and `price[0]` raise `IndexError`
on empty lists (still inside the worker's `try`), otherwise every field is
filled from the scraped data. -/
def mkStageRecord (ticker : String) (d : FundScraped) : Except PyErr StageRecord :=
  match d.name.head?, d.price.head? with
  | some nm, some pr =>
    .ok { ticker := ticker
          name := nm
          price := some pr
          change_intraday := some d.change_intraday
          change_afterhours := d.change_afterhours
          df_summary := d.df_summary
          df_statistics_valuations := d.df_statistics_valuations
          df_statistics_highlights := d.df_statistics_highlights
          df_income_statement := d.df_income_statement
          df_balance_sheet := d.df_balance_sheet
          df_cash_flow := d.df_cash_flow }
  | _, _ => .error .indexError

/-- The effect of one `Scraper.fundamentals` worker on the shared map
(`FiScrape_Core.py`, lines 665-690): the scrape outcome (an exception at any
point surfaces as `.error`) is published as one lock-guarded assignment at
the ticker's key; any exception — during scraping or while building the
record — is caught by the worker's `except` and leaves the map untouched. -/
def fundamentals_publish (ticker : String) (outcome : Except PyErr FundScraped)
    (shared : String → Option StageRecord) : String → Option StageRecord :=
  match (do
      let d ← outcome
      mkStageRecord ticker d : Except PyErr StageRecord) with
  | .error _ => shared
  | .ok r => fun k => if k = ticker then some r else shared k

/-- Concrete analyzer input whose statistics highlights resolve the profit
margin to the literal `"0.00%"` while the income statement provides net
income 50 and total revenue 100 (all other sections inert). -/
def pmInput : FundInput :=
  { df_summary := some [["YY", "1"]]
    df_statistics_valuations := some [["h0", "h1", "h2"]]
    df_statistics_highlights := some [["Profit Margin", "0.00%"]]
    df_income_statement := some
      [["Breakdown", "TTM", "K1", "a", "b", "c"],
       ["Total Revenue", "100", "--", "--", "--", "--"],
       ["Net Income", "50", "--", "--", "--", "--"]]
    df_balance_sheet := some []
    df_cash_flow := some [] }

/-- Concrete analyzer input with a five-historical-column income statement:
total revenue 8 now against 1 at the 3-year offset (column 5). -/
def fiveColInput : FundInput :=
  { df_summary := some [["ZZ", "1"]]
    df_statistics_valuations := some [["h0", "h1", "hv"]]
    df_statistics_highlights := some []
    df_income_statement := some
      [["Breakdown", "TTM", "K1", "c3", "c4", "c5"],
       ["Total Revenue", "8", "n1", "n2", "n3", "1"]]
    df_balance_sheet := some []
    df_cash_flow := some [] }

/-- The same analyzer input with only four historical columns: total revenue
8 now against 2 at the 2-year offset (column 4); column 5 does not exist, so
the growth block's `IndexError` fallback fires. -/
def fourColInput : FundInput :=
  { df_summary := some [["ZZ", "1"]]
    df_statistics_valuations := some [["h0", "h1", "hv"]]
    df_statistics_highlights := some []
    df_income_statement := some
      [["Breakdown", "TTM", "K1", "c3", "c4"],
       ["Total Revenue", "8", "n1", "n2", "2"]]
    df_balance_sheet := some []
    df_cash_flow := some [] }

/-- Concrete analyzer input whose summary market cap cell carries no
magnitude suffix, so `abbr_to_number` passes the raw string through, while
the statistics highlights provide a numeric operating cash flow. -/
def strMcInput : FundInput :=
  { df_summary := some [["Market Cap", "123"]]
    df_statistics_valuations := some [["h0", "h1", "hv"]]
    df_statistics_highlights := some [["Operating Cash Flow", "5M"]]
    df_income_statement := some []
    df_balance_sheet := some []
    df_cash_flow := some [] }

/-- A detailed-analysis value vector with every search absent (the growth
offsets then stay at their 3-year defaults). -/
def dvalsBase : DVals :=
  { forward_dividend_and_yield := none, market_cap := none, eps := none
    diluted_eps0 := none, price_to_book0 := none, price_to_sales0 := none
    price_to_earnings0 := none, current_ratio0 := none, return_on_assets0 := none
    return_on_equity0 := none, profit_margin0 := none, market_cap_float := none
    operating_cash_flow0 := none
    total_revenue := none, total_revenue_prev := none, total_revenue_period := 3
    operating_income := none, operating_income_prev := none, operating_income_period := 3
    net_income := none, net_income_prev := none, net_income_period := 3
    diluted_eps_fs := none, diluted_eps_fs_prev := none, diluted_eps_fs_period := 3
    current_assets := none, current_liabilities := none, inventory := none
    EBIT := none, interest_expense := none, total_debt := none
    stockholders_equity := none, tax_provision := none, invested_capital := none
    tangible_book_value := none, total_assets := none
    price_to_cash_flow0 := none, diluted_eps := none, operating_cash_flow := none
    price_to_book := none, price_to_sales := none, price_to_earnings := none
    price_to_cash_flow := none, latest_10Q := "", latest_10K := "" }

/-- The value vector `gatherPhase` produces on `fiveColInput`: revenue 8
against 1 at the 3-year offset. -/
def fiveColVals : DVals :=
  { dvalsBase with total_revenue := some 8, total_revenue_prev := some 1
                   total_revenue_period := 3, latest_10Q := "hv", latest_10K := "K1" }

/-- The value vector `gatherPhase` produces on `fourColInput`: revenue 8
against 2 at the 2-year offset. -/
def fourColVals : DVals :=
  { dvalsBase with total_revenue := some 8, total_revenue_prev := some 2
                   total_revenue_period := 2, latest_10Q := "hv", latest_10K := "K1" }

/-- The entity record both the five-column and the four-column runs produce:
identical, though the offsets used differ. -/
def offsetRecord : FundRecord :=
  { summary_availability := some "", fs_availability := some ""
    latest_10Q := some "hv", latest_10K := some "K1"
    revenue_growth := some "100.0%", calculation_mode := some "TTM" }

/-- An existing CSV frame: one ticker whose price is resolved and whose EPS
cell is NaN. -/
def csvExisting : List (String × CsvRow) :=
  [("AAPL", [("price", some "5"), ("eps", none)])]

/-- New export data: a fresh price and EPS for the existing ticker and one
new ticker. -/
def csvNew : List (String × CsvRow) :=
  [("AAPL", [("price", some "9"), ("eps", some "6")]), ("MSFT", [("price", some "7")])]

/-- A completed scrape of one ticker, for instantiating the publish step. -/
def sampleScraped : FundScraped :=
  { name := ["Apple Inc."], price := ["123.45"]
    change_intraday := ("+1.00", "+0.81%"), change_afterhours := none
    df_summary := some [["Market Cap", "3T"]]
    df_statistics_valuations := none, df_statistics_highlights := none
    df_income_statement := none, df_balance_sheet := none, df_cash_flow := none }

/-- The complete stage record the publish step stores for `sampleScraped`. -/
def sampleStageRecord : StageRecord :=
  { ticker := "AAPL", name := "Apple Inc.", price := some "123.45"
    change_intraday := some ("+1.00", "+0.81%"), change_afterhours := none
    df_summary := some [["Market Cap", "3T"]]
    df_statistics_valuations := none, df_statistics_highlights := none
    df_income_statement := none, df_balance_sheet := none, df_cash_flow := none }

/-- Concrete analyzer input whose statistics pages resolve price-to-book,
current ratio and a nonzero profit margin, for exercising the set-once
cascade. -/
def wInput : FundInput :=
  { df_summary := some [["WW", "1"]]
    df_statistics_valuations := some [["Price/Book", "3.5", "pv2"]]
    df_statistics_highlights := some [["Profit Margin", "12.5%"], ["Current Ratio", "1.9"]]
    df_income_statement := some [["Breakdown", "TTM", "KX"]]
    df_balance_sheet := some []
    df_cash_flow := some [] }

/-- Inversion of a successful `Except` bind. -/
theorem bindOk {ε α β : Type} {x : Except ε α} {f : α → Except ε β} {b : β}
    (h : x >>= f = .ok b) : ∃ a, x = .ok a ∧ f a = .ok b := by
  cases x with
  | error e => simp [Bind.bind, Except.bind] at h
  | ok a => exact ⟨a, rfl, by simpa [Bind.bind, Except.bind] using h⟩

/-- Inversion of a successful `Except.map`. -/
theorem mapOk {ε α β : Type} {x : Except ε α} {f : α → β} {b : β}
    (h : Except.map f x = .ok b) : ∃ a, x = .ok a ∧ f a = b := by
  cases x with
  | error e => simp [Except.map] at h
  | ok a => exact ⟨a, rfl, by simpa [Except.map] using h⟩

/-- `strContains` decides substring containment on the character lists. -/
theorem strContains_true_iff {s pat : String} :
    strContains s pat = true ↔ pat.data <:+: s.data := by
  simp [strContains]

/-- Stripping only removes characters at the two ends: the stripped character
list is an infix of the original. -/
theorem pyStrip_sub (s : String) : (pyStrip s).data <:+: s.data := by
  have h1 : dropWs s.data <:+ s.data := List.dropWhile_suffix _
  have h2 : (dropWs s.data).reverse.dropWhile Char.isWhitespace <:+ (dropWs s.data).reverse :=
    List.dropWhile_suffix _
  have h3 : ((dropWs s.data).reverse.dropWhile Char.isWhitespace).reverse <+: dropWs s.data := by
    have h4 := List.reverse_prefix.mpr h2
    simpa using h4
  simpa [pyStrip] using h3.isInfix.trans h1.isInfix

/-- A successful `search_parameter_go` hit is the stripped form of a cell
that passed the placeholder test. -/
theorem search_go_ok_shape {df : Table} {ps : List String} {oc sc : ℕ} {v : String}
    (h : search_parameter_go df ps oc sc = .ok (some v)) :
    ∃ cell, v = pyStrip cell ∧ isPlaceholderCell cell = false := by
  induction ps with
  | nil => simp [search_parameter_go] at h
  | cons p rest ih =>
    rw [search_parameter_go] at h
    split at h
    · exact ih h
    · split at h
      · exact absurd h (by simp)
      · split at h
        · exact ih h
        · rename_i cell heq hnp
          have hv : pyStrip cell = v := by simpa using h
          exact ⟨cell, hv.symm, by simpa using hnp⟩

/-- A value returned by `search_parameter` is never one of the placeholder
literals, so `Ticker.set_attr`'s normalization leaves it unchanged. -/
theorem search_ok_set_norm {odf : Option Table} {ps : List String} {oc sc : ℕ} {v : String}
    (h : search_parameter odf ps oc sc = .ok (some v)) : set_norm (some v) = some v := by
  obtain ⟨cell, rfl, hcell⟩ : ∃ cell, v = pyStrip cell ∧ isPlaceholderCell cell = false := by
    cases odf with
    | none => simp [search_parameter] at h
    | some df =>
      rw [search_parameter] at h
      by_cases he : df.isEmpty
      · rw [if_pos he] at h
        exact absurd h (by simp)
      · rw [if_neg he] at h
        exact search_go_ok_shape h
  have key : ∀ tok : String, tok ∈ fs_placeholders → pyStrip cell ≠ tok := by
    intro tok htok heq
    have h1 : tok.data <:+: cell.data := by
      have h2 : tok.data <:+: (pyStrip cell).data := by simp [heq]
      exact h2.trans (pyStrip_sub cell)
    have h3 : strContains cell tok = true := strContains_true_iff.mpr h1
    have h4 : isPlaceholderCell cell = true := by
      have h5 : fs_placeholders.any (fun x => strContains cell x) = true :=
        List.any_eq_true.mpr ⟨tok, htok, h3⟩
      simpa [isPlaceholderCell] using h5
    rw [hcell] at h4
    exact Bool.false_ne_true h4
  have k1 := key "--" (by simp [fs_placeholders])
  have k2 := key "-- " (by simp [fs_placeholders])
  have k3 := key "---" (by simp [fs_placeholders])
  simp [set_norm, k1, k2, k3]

/-- Inversion of a successful detailed-analysis run: the searched primaries,
the growth block, and the cascade-fallback steps relate exactly as the
source sequences them. -/
theorem gatherPhase_ok_inv {period : ℕ} {inp : FundInput} {v : DVals}
    (h : gatherPhase period inp = .ok v) :
    search_parameter inp.df_statistics_highlights ["Diluted EPS"] 1 0 = .ok v.diluted_eps0
    ∧ search_parameter inp.df_statistics_valuations ["Price/Book"] period 0 = .ok v.price_to_book0
    ∧ search_parameter inp.df_statistics_valuations ["Price/Sales"] period 0 = .ok v.price_to_sales0
    ∧ search_parameter inp.df_statistics_valuations ["Trailing P/E"] period 0 = .ok v.price_to_earnings0
    ∧ search_parameter inp.df_statistics_highlights ["Current Ratio"] 1 0 = .ok v.current_ratio0
    ∧ search_parameter inp.df_statistics_highlights ["Return on Assets"] 1 0 = .ok v.return_on_assets0
    ∧ search_parameter inp.df_statistics_highlights ["Return on Equity"] 1 0 = .ok v.return_on_equity0
    ∧ search_parameter inp.df_statistics_highlights ["Profit Margin"] 1 0 = .ok v.profit_margin0
    ∧ growth_block inp.df_income_statement "Total Revenue" period
        = .ok (v.total_revenue, v.total_revenue_prev, v.total_revenue_period)
    ∧ de_fallback_step inp.df_income_statement period v.diluted_eps0 = .ok v.diluted_eps
    ∧ ocf_fallback_step inp.df_cash_flow period v.operating_cash_flow0 = .ok v.operating_cash_flow
    ∧ ptb_fb v.price_to_book0 v.market_cap_float v.tangible_book_value = .ok v.price_to_book
    ∧ pts_fb v.price_to_sales0 v.market_cap_float v.total_revenue = .ok v.price_to_sales
    ∧ pte_fb v.price_to_earnings0 v.market_cap_float v.net_income = .ok v.price_to_earnings
    ∧ ptcf_fb v.price_to_cash_flow0 v.market_cap_float v.operating_cash_flow
        = .ok v.price_to_cash_flow := by
  rw [gatherPhase] at h
  obtain ⟨fdy, h_fdy, h⟩ := bindOk h
  obtain ⟨mcap, h_mcap, h⟩ := bindOk h
  obtain ⟨eps, h_eps, h⟩ := bindOk h
  obtain ⟨de0, h_de0, h⟩ := bindOk h
  obtain ⟨ptb0, h_ptb0, h⟩ := bindOk h
  obtain ⟨pts0, h_pts0, h⟩ := bindOk h
  obtain ⟨pte0, h_pte0, h⟩ := bindOk h
  obtain ⟨cr0, h_cr0, h⟩ := bindOk h
  obtain ⟨roa0, h_roa0, h⟩ := bindOk h
  obtain ⟨roe0, h_roe0, h⟩ := bindOk h
  obtain ⟨pm0, h_pm0, h⟩ := bindOk h
  obtain ⟨mcs, h_mcs, h⟩ := bindOk h
  obtain ⟨mcf, h_mcf, h⟩ := bindOk h
  obtain ⟨ocfs, h_ocfs, h⟩ := bindOk h
  obtain ⟨ocf0, h_ocf0, h⟩ := bindOk h
  obtain ⟨trT, h_trT, h⟩ := bindOk h
  obtain ⟨trTa, trTb, trTc⟩ := trT
  obtain ⟨oiT, h_oiT, h⟩ := bindOk h
  obtain ⟨oiTa, oiTb, oiTc⟩ := oiT
  obtain ⟨niT, h_niT, h⟩ := bindOk h
  obtain ⟨niTa, niTb, niTc⟩ := niT
  obtain ⟨deT, h_deT, h⟩ := bindOk h
  obtain ⟨deTa, deTb, deTc⟩ := deT
  obtain ⟨cas, h_cas, h⟩ := bindOk h
  obtain ⟨ca, h_ca, h⟩ := bindOk h
  obtain ⟨cls, h_cls, h⟩ := bindOk h
  obtain ⟨cl, h_cl, h⟩ := bindOk h
  obtain ⟨invs, h_invs, h⟩ := bindOk h
  obtain ⟨inv, h_inv, h⟩ := bindOk h
  obtain ⟨ebs, h_ebs, h⟩ := bindOk h
  obtain ⟨eb, h_eb, h⟩ := bindOk h
  obtain ⟨ies, h_ies, h⟩ := bindOk h
  obtain ⟨ie, h_ie, h⟩ := bindOk h
  obtain ⟨tds, h_tds, h⟩ := bindOk h
  obtain ⟨td, h_td, h⟩ := bindOk h
  obtain ⟨ses, h_ses, h⟩ := bindOk h
  obtain ⟨se, h_se, h⟩ := bindOk h
  obtain ⟨taxs, h_taxs, h⟩ := bindOk h
  obtain ⟨tax, h_tax, h⟩ := bindOk h
  obtain ⟨ics, h_ics, h⟩ := bindOk h
  obtain ⟨ic, h_ic, h⟩ := bindOk h
  obtain ⟨tbvs, h_tbvs, h⟩ := bindOk h
  obtain ⟨tbv, h_tbv, h⟩ := bindOk h
  obtain ⟨tas, h_tas, h⟩ := bindOk h
  obtain ⟨ta, h_ta, h⟩ := bindOk h
  obtain ⟨ptcf0, h_ptcf0, h⟩ := bindOk h
  obtain ⟨de, h_de, h⟩ := bindOk h
  obtain ⟨ocf, h_ocf, h⟩ := bindOk h
  obtain ⟨ptb, h_ptb, h⟩ := bindOk h
  obtain ⟨pts, h_pts, h⟩ := bindOk h
  obtain ⟨pte, h_pte, h⟩ := bindOk h
  obtain ⟨ptcf, h_ptcf, h⟩ := bindOk h
  obtain ⟨l10q, h_l10q, h⟩ := bindOk h
  obtain ⟨l10k, h_l10k, h⟩ := bindOk h
  simp only [pure, Except.pure] at h
  cases h
  exact ⟨h_de0, h_ptb0, h_pts0, h_pte0, h_cr0, h_roa0, h_roe0, h_pm0, h_trT,
         h_de, h_ocf, h_ptb, h_pts, h_pte, h_ptcf⟩

/-- A resolved price-to-book is never touched by its fallback. -/
theorem ptb_fb_primary (s : String) (mc : Option (ℚ ⊕ String)) (t : Option ℚ) :
    ptb_fb (some s) mc t = .ok (some s) := by
  rcases mc with _ | ⟨q | r⟩ <;> rcases t with _ | t <;> rfl

/-- A resolved price-to-sales is never touched by its fallback. -/
theorem pts_fb_primary (s : String) (mc : Option (ℚ ⊕ String)) (t : Option ℚ) :
    pts_fb (some s) mc t = .ok (some s) := by
  rcases mc with _ | ⟨q | r⟩ <;> rcases t with _ | t <;> rfl

/-- A resolved price-to-earnings is never touched by its fallback. -/
theorem pte_fb_primary (s : String) (mc : Option (ℚ ⊕ String)) (t : Option ℚ) :
    pte_fb (some s) mc t = .ok (some s) := by
  rcases mc with _ | ⟨q | r⟩ <;> rcases t with _ | t <;> rfl

/-- A resolved price-to-cash-flow is never touched by its fallback. -/
theorem ptcf_fb_primary (s : String) (mc o : Option (ℚ ⊕ String)) :
    ptcf_fb (some s) mc o = .ok (some s) := by
  rcases mc with _ | ⟨q | r⟩ <;> rcases o with _ | ⟨q2 | r2⟩ <;> rfl

/-- A resolved current ratio is never touched by its fallback. -/
theorem cr_fb_primary (s : String) (a l : Option ℚ) :
    cr_fb (some s) a l = some s := by
  rcases a with _ | a <;> rcases l with _ | l <;> rfl

/-- A resolved return on assets is never touched by its fallback. -/
theorem roa_fb_primary (s : String) (n t : Option ℚ) :
    roa_fb (some s) n t = some s := by
  rcases n with _ | n <;> rcases t with _ | t <;> rfl

/-- A resolved return on equity is never touched by its fallback. -/
theorem roe_fb_primary (s : String) (n t : Option ℚ) :
    roe_fb (some s) n t = some s := by
  rcases n with _ | n <;> rcases t with _ | t <;> rfl

/-- An absent profit margin is never recomputed by the fallback, whose
trigger is the literal string, not absence. -/
theorem pm_fb_none (n t : Option ℚ) : pm_fb none n t = none := by
  rcases n with _ | n <;> rcases t with _ | t <;> rfl

/-- A resolved profit margin other than the literal `"0.00%"` is never
touched by the fallback. -/
theorem pm_fb_other (s : String) (hs : s ≠ "0.00%") (n t : Option ℚ) :
    pm_fb (some s) n t = some s := by
  rcases n with _ | n <;> rcases t with _ | t <;> simp [pm_fb] <;>
    (try intro h) <;> simp_all

/-- A resolved diluted EPS is never replaced by the income-statement
search. -/
theorem de_step_primary (df : Option Table) (p : ℕ) (s : String) :
    de_fallback_step df p (some s) = .ok (some s) := by
  simp [de_fallback_step, pure, Except.pure]

/-- A resolved operating cash flow is never replaced by the cash-flow-statement
search. -/
theorem ocf_step_primary (df : Option Table) (p : ℕ) (u : ℚ ⊕ String) :
    ocf_fallback_step df p (some u) = .ok (some u) := by
  simp [ocf_fallback_step, pure, Except.pure]

/-- For `period ≤ 1` the growth percentage is the simple formula. -/
theorem growthVal_simple (c p : ℚ) (k : ℕ) (hk : k ≤ 1) :
    growthVal c p k = (((c : ℝ) - (p : ℝ)) / (p : ℝ)) * 100 := by
  rw [growthVal, if_neg (by omega)]

/-- For `period > 1` the growth percentage is the compound formula. -/
theorem growthVal_compound (c p : ℚ) (k : ℕ) (hk : 1 < k) :
    growthVal c p k = (((c : ℝ) / (p : ℝ)) ^ ((1 : ℝ) / (k : ℝ)) - 1) * 100 := by
  rw [growthVal, if_pos hk]

/-- Evaluation of the sign-transition example `calculate_growth_rate(-50, 100, 1)`. -/
theorem cg_m50 : calculate_growth_rate (some (-50)) (some 100) 1 = some "-50.0% (+ -> -)" := by
  have h4 : growthVal 50 100 1 = -50 := by
    rw [growthVal, if_neg (by omega)]
    push_cast
    norm_num
  have h5 : pyRound2 (-50 : ℝ) = -50 := by
    rw [pyRound2, show ((-50:ℝ) * 100) = ((-5000:ℤ):ℝ) by norm_num, round_intCast]
    norm_num
  simp only [calculate_growth_rate]
  rw [if_neg (by norm_num : ¬ (100:ℚ) = 0)]
  simp only [show ((-50:ℚ)) * 100 < 0 from by norm_num, if_true,
             show ¬ ((0:ℚ) < -50) from by norm_num, if_false,
             show |(-50:ℚ)| = 50 from by norm_num, show |(100:ℚ)| = 100 from by norm_num]
  rw [h4, h5]
  decide

/-- Three-year compound growth of 8 against 1 evaluates to 100 percent. -/
theorem gg813 : growth_guard (some 8) (some 1) 3 = some "100.0%" := by
  have h8 : (((8:ℚ):ℝ)/((1:ℚ):ℝ)) ^ ((1:ℝ)/((3:ℕ):ℝ)) = 2 := by
    have h1 : (((8:ℚ):ℝ)/((1:ℚ):ℝ)) = (2:ℝ) ^ (3:ℕ) := by push_cast; norm_num
    rw [h1, show (1:ℝ)/((3:ℕ):ℝ) = (((3:ℕ):ℝ))⁻¹ from one_div _]
    exact Real.pow_rpow_inv_natCast (by norm_num) (by norm_num)
  have h4 : growthVal 8 1 3 = 100 := by
    rw [growthVal, if_pos (by omega), h8]
    norm_num
  have h5 : pyRound2 (100 : ℝ) = 100 := by
    rw [pyRound2, show ((100:ℝ) * 100) = ((10000:ℤ):ℝ) by norm_num, round_intCast]
    norm_num
  simp only [growth_guard, calculate_growth_rate]
  rw [if_neg (by norm_num : ¬ (1:ℚ) = 0), if_neg (by norm_num : ¬ (1:ℚ) = 0)]
  simp only [show ¬ ((8:ℚ)) * 1 < 0 from by norm_num, if_false]
  rw [h4, h5]
  decide

/-- Two-year compound growth of 8 against 2 also evaluates to 100 percent. -/
theorem gg822 : growth_guard (some 8) (some 2) 2 = some "100.0%" := by
  have h8 : (((8:ℚ):ℝ)/((2:ℚ):ℝ)) ^ ((1:ℝ)/((2:ℕ):ℝ)) = 2 := by
    have h1 : (((8:ℚ):ℝ)/((2:ℚ):ℝ)) = (2:ℝ) ^ (2:ℕ) := by push_cast; norm_num
    rw [h1, show (1:ℝ)/((2:ℕ):ℝ) = (((2:ℕ):ℝ))⁻¹ from one_div _]
    exact Real.pow_rpow_inv_natCast (by norm_num) (by norm_num)
  have h4 : growthVal 8 2 2 = 100 := by
    rw [growthVal, if_pos (by omega), h8]
    norm_num
  have h5 : pyRound2 (100 : ℝ) = 100 := by
    rw [pyRound2, show ((100:ℝ) * 100) = ((10000:ℤ):ℝ) by norm_num, round_intCast]
    norm_num
  simp only [growth_guard, calculate_growth_rate]
  rw [if_neg (by norm_num : ¬ (2:ℚ) = 0), if_neg (by norm_num : ¬ (2:ℚ) = 0)]
  simp only [show ¬ ((8:ℚ)) * 2 < 0 from by norm_num, if_false]
  rw [h4, h5]
  decide

/-- C3: growth-rate algorithm of `Analyzer.calculate_growth_rate` — with
opposite signs the rate is computed on absolute values and a sign-transition
marker is appended (`"- -> +"` when the current value is positive, `"+ -> -"`
when it is negative); for `period > 1` the compound formula
`(current/previous) ^ (1/period) - 1` is used and otherwise the simple
formula `(current - previous)/previous`; the result is a percentage rounded
to two decimals with the marker in parentheses, and on `(-50, 100, 1)` it is
exactly `"-50.0% (+ -> -)"`. -/
theorem growth_rate_algorithm :
    calculate_growth_rate (some (-50)) (some 100) 1 = some "-50.0% (+ -> -)"
    ∧ (∀ (c p : ℚ) (k : ℕ), c < 0 → 0 < p →
        calculate_growth_rate (some c) (some p) k =
          some (formatFloat (pyRound2 (growthVal |c| |p| k)) ++ "%" ++
            markerSuffix (some "+ -> -")))
    ∧ (∀ (c p : ℚ) (k : ℕ), 0 < c → p < 0 →
        calculate_growth_rate (some c) (some p) k =
          some (formatFloat (pyRound2 (growthVal |c| |p| k)) ++ "%" ++
            markerSuffix (some "- -> +")))
    ∧ (∀ (c p : ℚ) (k : ℕ), 1 < k →
        growthVal c p k = (((c : ℝ) / (p : ℝ)) ^ ((1 : ℝ) / (k : ℝ)) - 1) * 100)
    ∧ (∀ (c p : ℚ) (k : ℕ), k ≤ 1 →
        growthVal c p k = (((c : ℝ) - (p : ℝ)) / (p : ℝ)) * 100) := by
  refine ⟨cg_m50, ?_, ?_, growthVal_compound, growthVal_simple⟩
  · intro c p k hc hp
    simp only [calculate_growth_rate]
    rw [if_neg hp.ne']
    simp only [mul_neg_of_neg_of_pos hc hp, if_true, not_lt.mpr hc.le, if_false]
  · intro c p k hc hp
    simp only [calculate_growth_rate]
    rw [if_neg hp.ne]
    simp only [mul_neg_of_pos_of_neg hc hp, if_true, hc, if_true]

/-- C3 witness: each part of the growth-rate theorem applied at a concrete
input with its hypotheses discharged. -/
theorem growth_rate_algorithm_witness :
    calculate_growth_rate (some (-50)) (some 100) 1 = some "-50.0% (+ -> -)"
    ∧ calculate_growth_rate (some (-3)) (some 2) 5 =
        some (formatFloat (pyRound2 (growthVal |(-3 : ℚ)| |(2 : ℚ)| 5)) ++ "%" ++
          markerSuffix (some "+ -> -"))
    ∧ calculate_growth_rate (some 3) (some (-2)) 5 =
        some (formatFloat (pyRound2 (growthVal |(3 : ℚ)| |(-2 : ℚ)| 5)) ++ "%" ++
          markerSuffix (some "- -> +"))
    ∧ growthVal 7 2 3 = ((((7 : ℚ) : ℝ) / ((2 : ℚ) : ℝ)) ^ ((1 : ℝ) / ((3 : ℕ) : ℝ)) - 1) * 100
    ∧ growthVal 7 2 1 = ((((7 : ℚ) : ℝ) - ((2 : ℚ) : ℝ)) / ((2 : ℚ) : ℝ)) * 100 :=
  ⟨growth_rate_algorithm.1,
   growth_rate_algorithm.2.1 (-3) 2 5 (by norm_num) (by norm_num),
   growth_rate_algorithm.2.2.1 3 (-2) 5 (by norm_num) (by norm_num),
   growth_rate_algorithm.2.2.2.1 7 2 3 (by norm_num),
   growth_rate_algorithm.2.2.2.2 7 2 1 (by norm_num)⟩

/-- C9: `Analyzer.calculate_growth_rate` returns absent exactly when the
current value is absent, the previous value is absent, or the previous value
is zero; on any other rational operands it returns a formatted percentage
string (the embedding is total there — no exception path is reachable, and
absent is never coerced to zero). -/
theorem growth_rate_absence_guard :
    (∀ (p : Option ℚ) (k : ℕ), calculate_growth_rate none p k = none)
    ∧ (∀ (c : Option ℚ) (k : ℕ), calculate_growth_rate c none k = none)
    ∧ (∀ (c : ℚ) (k : ℕ), calculate_growth_rate (some c) (some 0) k = none)
    ∧ (∀ (c p : ℚ) (k : ℕ), p = 0 ∨ ∃ s, calculate_growth_rate (some c) (some p) k = some s) := by
  refine ⟨?_, ?_, ?_, ?_⟩
  · intro p k
    rcases p with _ | p <;> rfl
  · intro c k
    rcases c with _ | c <;> rfl
  · intro c k
    simp [calculate_growth_rate]
  · intro c p k
    by_cases hp : p = 0
    · exact Or.inl hp
    · right
      simp [calculate_growth_rate, hp]

/-- C5: the page-acquisition retry loop of `Scraper.fundamentals` performs at
most `R` attempts for any validity check; with a check failing on every
attempt it performs exactly `R` attempts, recreates the session after each
failure, and ends with no page — the FAIL outcome its caller turns into
"section unavailable" — and the default budget is 10. -/
theorem retry_termination :
    (∀ (α : Type) (R : ℕ) (check : ℕ → Option α), (page_retry_loop R check).2.1 ≤ R)
    ∧ (∀ (α : Type) (R : ℕ) (check : ℕ → Option α), 1 ≤ R → (∀ i, check i = none) →
        page_retry_loop R check = (none, R, R))
    ∧ scraper_default_retries = 10 := by
  have haux : ∀ (α : Type) (check : ℕ → Option α) (b n r : ℕ),
      (load_retry_aux check b n r).2.1 ≤ n + b := by
    intro α check b
    induction b with
    | zero => intro n r; simp [load_retry_aux]
    | succ b ih =>
      intro n r
      rw [load_retry_aux]
      rcases check n with _ | page
      · exact le_trans (ih (n + 1) (r + 1)) (by omega)
      · simp
  have hfail : ∀ (α : Type) (check : ℕ → Option α), (∀ i, check i = none) →
      ∀ (b n r : ℕ), load_retry_aux check b n r = (none, n + b, r + b) := by
    intro α check hc b
    induction b with
    | zero => intro n r; simp [load_retry_aux]
    | succ b ih =>
      intro n r
      rw [load_retry_aux, hc n]
      have h1 : n + 1 + b = n + (b + 1) := by omega
      have h2 : r + 1 + b = r + (b + 1) := by omega
      show load_retry_aux check b (n + 1) (r + 1) = (none, n + (b + 1), r + (b + 1))
      rw [ih (n + 1) (r + 1), h1, h2]
  refine ⟨?_, ?_, rfl⟩
  · intro α R check
    simpa [page_retry_loop] using haux α check R 0 0
  · intro α R check hR hc
    simpa [page_retry_loop] using hfail α check hc R 0 0

/-- C5 witness: a budget of three attempts against a permanently failing
check performs exactly three attempts, three session recreations, and
fails. -/
theorem retry_termination_witness :
    page_retry_loop 3 (fun _ => (none : Option Unit)) = (none, 3, 3) :=
  retry_termination.2.1 Unit 3 (fun _ => none) (by norm_num) (fun _ => rfl)

/-- C7 counterexample: `search_parameter` does not normalize `"N/A"` — the
matched cell is returned verbatim, not as absent; and a placeholder cell in
the first alias's matched row falls through to a later alias instead of
resolving to absent. -/
theorem field_resolution_counterexample :
    search_parameter (some [["Total Revenue", "N/A"]]) ["Total Revenue"] 1 0 = .ok (some "N/A")
    ∧ search_parameter (some [["Alpha", "--"], ["Beta", "7"]]) ["Alpha", "Beta"] 1 0 =
        .ok (some "7") := by
  exact ⟨by decide, by decide⟩

/-- C7 (amended): `search_parameter` returns the stripped cell at the output
column of the first row matching an alias, aliases tried in order; the only
placeholder tokens are `"--"`, `"-- "` and `"---"` (by substring), and a
placeholder match skips to the next alias rather than resolving to absent
(`"N/A"` is not a placeholder); an empty section yields absent without
raising, and a returned value is never itself a placeholder literal. -/
theorem field_resolution :
    (∀ (ps : List String) (oc sc : ℕ), search_parameter (some []) ps oc sc = .ok none)
    ∧ (∀ (df : Table) (p : String) (oc sc : ℕ) (row : List String) (cell : String),
        df ≠ [] → (matchingRows df p sc).head? = some row → row.get? oc = some cell →
        isPlaceholderCell cell = false →
        search_parameter (some df) [p] oc sc = .ok (some (pyStrip cell)))
    ∧ (∀ (df : Table) (p : String) (ps : List String) (oc sc : ℕ) (row : List String)
        (cell : String),
        (matchingRows df p sc).head? = some row → row.get? oc = some cell →
        isPlaceholderCell cell = true →
        search_parameter (some df) (p :: ps) oc sc = search_parameter (some df) ps oc sc)
    ∧ (∀ (df : Table) (p : String) (ps : List String) (oc sc : ℕ),
        (matchingRows df p sc).head? = none →
        search_parameter (some df) (p :: ps) oc sc = search_parameter (some df) ps oc sc)
    ∧ (∀ (odf : Option Table) (ps : List String) (oc sc : ℕ) (v : String),
        search_parameter odf ps oc sc = .ok (some v) → set_norm (some v) = some v) := by
  refine ⟨?_, ?_, ?_, ?_, fun _ _ _ _ _ h => search_ok_set_norm h⟩
  · intro ps oc sc
    simp [search_parameter]
  · intro df p oc sc row cell hdf hrow hcell hnp
    have hne : df.isEmpty = false := by
      rcases df with _ | ⟨r, rs⟩
      · exact absurd rfl hdf
      · rfl
    rw [search_parameter, hne]
    simp only [Bool.false_eq_true, if_false, search_parameter_go, hrow, hcell, hnp]
  · intro df p ps oc sc row cell hrow hcell hpl
    rcases df with _ | ⟨r, rs⟩
    · simp [matchingRows] at hrow
    · rw [search_parameter, search_parameter]
      simp only [List.isEmpty_cons, Bool.false_eq_true, if_false]
      rw [search_parameter_go]
      simp only [hrow, hcell, hpl, if_true]
  · intro df p ps oc sc hrow
    rcases df with _ | ⟨r, rs⟩
    · simp [search_parameter]
    · rw [search_parameter, search_parameter]
      simp only [List.isEmpty_cons, Bool.false_eq_true, if_false]
      rw [search_parameter_go]
      simp only [hrow]

/-- C7 witness: the amended resolution behavior at concrete tables. -/
theorem field_resolution_witness :
    search_parameter (some [["Total Revenue", " 5 "]]) ["Total Revenue"] 1 0 =
      .ok (some (pyStrip " 5 "))
    ∧ search_parameter (some [["Alpha", "--"], ["Beta", "7"]]) ["Alpha", "Beta"] 1 0 =
        search_parameter (some [["Alpha", "--"], ["Beta", "7"]]) ["Beta"] 1 0
    ∧ search_parameter (some [["Alpha", "1"]]) ["Gamma", "Alpha"] 1 0 =
        search_parameter (some [["Alpha", "1"]]) ["Alpha"] 1 0
    ∧ set_norm (some "7") = some "7" :=
  ⟨field_resolution.2.1 [["Total Revenue", " 5 "]] "Total Revenue" 1 0
      ["Total Revenue", " 5 "] " 5 " (by decide) (by decide) (by decide) (by decide),
   field_resolution.2.2.1 [["Alpha", "--"], ["Beta", "7"]] "Alpha" ["Beta"] 1 0
      ["Alpha", "--"] "--" (by decide) (by decide) (by decide),
   field_resolution.2.2.2.1 [["Alpha", "1"]] "Gamma" ["Alpha"] 1 0 (by decide),
   field_resolution.2.2.2.2 (some [["Alpha", "7"], ["Beta", "x"]]) ["Alpha"] 1 0 "7"
      (by decide)⟩

/-- C10: the fundamentals worker publishes its ticker's stage record as one
complete lock-guarded assignment after scraping finishes — a failed scrape
(or a failure while building the record) leaves the shared map unchanged at
every key, and a successful publish stores the complete record at the
ticker's key and touches no other entity's entry. -/
theorem atomic_publish :
    (∀ (t : String) (e : PyErr) (shared : String → Option StageRecord) (k : String),
        fundamentals_publish t (.error e) shared k = shared k)
    ∧ (∀ (t : String) (d : FundScraped) (e : PyErr) (shared : String → Option StageRecord)
        (k : String), mkStageRecord t d = .error e →
        fundamentals_publish t (.ok d) shared k = shared k)
    ∧ (∀ (t : String) (d : FundScraped) (r : StageRecord) (shared : String → Option StageRecord),
        mkStageRecord t d = .ok r →
        fundamentals_publish t (.ok d) shared t = some r
        ∧ (∀ k, k ≠ t → fundamentals_publish t (.ok d) shared k = shared k))
    ∧ (∀ (t : String) (d : FundScraped) (r : StageRecord), mkStageRecord t d = .ok r →
        r.ticker = t ∧ r.change_intraday = some d.change_intraday
        ∧ r.change_afterhours = d.change_afterhours
        ∧ r.df_summary = d.df_summary
        ∧ r.df_statistics_valuations = d.df_statistics_valuations
        ∧ r.df_statistics_highlights = d.df_statistics_highlights
        ∧ r.df_income_statement = d.df_income_statement
        ∧ r.df_balance_sheet = d.df_balance_sheet
        ∧ r.df_cash_flow = d.df_cash_flow) := by
  refine ⟨?_, ?_, ?_, ?_⟩
  · intro t e shared k
    rfl
  · intro t d e shared k hm
    simp [fundamentals_publish, Bind.bind, Except.bind, hm]
  · intro t d r shared hm
    constructor
    · simp [fundamentals_publish, Bind.bind, Except.bind, hm]
    · intro k hk
      simp [fundamentals_publish, Bind.bind, Except.bind, hm, hk]
  · intro t d r hm
    rw [mkStageRecord] at hm
    rcases hn : d.name.head? with _ | nm <;> rw [hn] at hm
    · simp at hm
    · rcases hp : d.price.head? with _ | pr <;> rw [hp] at hm
      · simp at hm
      · have hr : r = { ticker := t, name := nm, price := some pr
                        change_intraday := some d.change_intraday
                        change_afterhours := d.change_afterhours
                        df_summary := d.df_summary
                        df_statistics_valuations := d.df_statistics_valuations
                        df_statistics_highlights := d.df_statistics_highlights
                        df_income_statement := d.df_income_statement
                        df_balance_sheet := d.df_balance_sheet
                        df_cash_flow := d.df_cash_flow } := by
          have := hm
          simp at this
          exact this.symm
        subst hr
        exact ⟨rfl, rfl, rfl, rfl, rfl, rfl, rfl, rfl, rfl⟩

/-- C10 witness: a concrete publish stores the complete record at the
ticker's key, leaves another key untouched, and a failed scrape changes
nothing. -/
theorem atomic_publish_witness :
    fundamentals_publish "AAPL" (.ok sampleScraped) (fun _ => none) "AAPL" =
      some sampleStageRecord
    ∧ fundamentals_publish "AAPL" (.ok sampleScraped) (fun _ => none) "MSFT" = none
    ∧ fundamentals_publish "AAPL" (.error .typeError) (fun _ => none) "AAPL" = none :=
  ⟨(atomic_publish.2.2.1 "AAPL" sampleScraped sampleStageRecord (fun _ => none)
      (by decide)).1,
   (atomic_publish.2.2.1 "AAPL" sampleScraped sampleStageRecord (fun _ => none)
      (by decide)).2 "MSFT" (by decide),
   atomic_publish.1 "AAPL" .typeError (fun _ => none) "AAPL"⟩

/-- A zero-fuel or empty chunking is empty. -/
theorem chunkAux_nil {α : Type} (m fuel : ℕ) : chunkAux m fuel ([] : List α) = [] := by
  cases fuel <;> rfl

/-- With enough fuel and a positive batch size, the batches concatenate back
to the key list. -/
theorem chunkAux_flatten {α : Type} (m : ℕ) (hm : m ≠ 0) :
    ∀ (fuel : ℕ) (l : List α), l.length ≤ fuel → (chunkAux m fuel l).flatten = l := by
  intro fuel
  induction fuel with
  | zero =>
    intro l hl
    have h0 : l = [] := List.length_eq_zero.mp (Nat.le_zero.mp hl)
    subst h0
    rfl
  | succ f ih =>
    intro l hl
    rcases l with _ | ⟨a, l'⟩
    · rfl
    · have hstep : chunkAux m (f + 1) (a :: l') =
          (a :: l').take m :: chunkAux m f ((a :: l').drop m) := rfl
      rw [hstep, List.flatten_cons, ih ((a :: l').drop m) ?_]
      · exact List.take_append_drop m (a :: l')
      · simp only [List.length_drop, List.length_cons] at *
        omega

/-- Every batch is nonempty and no longer than the batch size. -/
theorem chunkAux_mem {α : Type} (m : ℕ) (hm : m ≠ 0) :
    ∀ (fuel : ℕ) (l : List α) (b : List α),
      b ∈ chunkAux m fuel l → b.length ≤ m ∧ b ≠ [] := by
  intro fuel
  induction fuel with
  | zero =>
    intro l b hb
    simp [chunkAux] at hb
  | succ f ih =>
    intro l b hb
    rcases l with _ | ⟨a, l'⟩
    · simp [chunkAux] at hb
    · have hstep : chunkAux m (f + 1) (a :: l') =
          (a :: l').take m :: chunkAux m f ((a :: l').drop m) := rfl
      rw [hstep] at hb
      rcases List.mem_cons.mp hb with h | h
      · subst h
        constructor
        · simp [List.length_take]
        · rcases m with _ | m'
          · exact absurd rfl hm
          · simp
      · exact ih _ _ h

/-- Every batch except possibly the last has exactly the batch size. -/
theorem chunkAux_full {α : Type} (m : ℕ) (hm : m ≠ 0) :
    ∀ (fuel : ℕ) (l : List α), l.length ≤ fuel →
      ∀ (i : ℕ) (bi : List α), (chunkAux m fuel l).get? i = some bi →
        i + 1 < (chunkAux m fuel l).length → bi.length = m := by
  intro fuel
  induction fuel with
  | zero =>
    intro l hl i bi hget hlt
    simp [chunkAux] at hget
  | succ f ih =>
    intro l hl i bi hget hlt
    rcases l with _ | ⟨a, l'⟩
    · simp [chunkAux] at hget
    · have hstep : chunkAux m (f + 1) (a :: l') =
          (a :: l').take m :: chunkAux m f ((a :: l').drop m) := rfl
      rw [hstep] at hget hlt
      rcases i with _ | i
      · have hbi : bi = (a :: l').take m := by simpa using hget.symm
        have htail : chunkAux m f ((a :: l').drop m) ≠ [] := by
          intro hemp
          rw [hemp] at hlt
          simp at hlt
        have hdrop : (a :: l').drop m ≠ [] := by
          intro hd
          rw [hd, chunkAux_nil] at htail
          exact htail rfl
        have hlen : m < (a :: l').length := by
          by_contra hge
          push_neg at hge
          exact hdrop (List.drop_eq_nil_of_le hge)
        rw [hbi, List.length_take]
        omega
      · refine ih ((a :: l').drop m) ?_ i bi (by simpa using hget) ?_
        · simp only [List.length_drop, List.length_cons] at *
          omega
        · simpa using hlt

/-- The trace of appended batch lists splits with a shifted batch index. -/
theorem schedTraceAux_append {α : Type} :
    ∀ (xs ys : List (List α)) (k : ℕ),
      schedTraceAux k (xs ++ ys) = schedTraceAux k xs ++ schedTraceAux (k + xs.length) ys := by
  intro xs
  induction xs with
  | nil => intro ys k; simp [schedTraceAux]
  | cons b bs ih =>
    intro ys k
    rw [List.cons_append, schedTraceAux, schedTraceAux, ih ys (k + 1)]
    simp only [List.length_cons, List.append_assoc]
    have h : k + 1 + bs.length = k + (bs.length + 1) := by omega
    rw [h]

/-- Every event of a trace started at batch index `k` carries an index in
`[k, k + number of batches)`. -/
theorem schedTraceAux_mem {α : Type} :
    ∀ (bs : List (List α)) (k : ℕ) (e : SchedEv α),
      e ∈ schedTraceAux k bs → k ≤ evBatch e ∧ evBatch e < k + bs.length := by
  intro bs
  induction bs with
  | nil => intro k e he; simp [schedTraceAux] at he
  | cons b bs ih =>
    intro k e he
    rw [schedTraceAux] at he
    rcases List.mem_append.mp he with h | h
    · rcases List.mem_append.mp h with h2 | h2
      · obtain ⟨x, hx, rfl⟩ := List.mem_map.mp h2
        refine ⟨le_refl k, ?_⟩
        simp [evBatch]
      · obtain ⟨x, hx, rfl⟩ := List.mem_map.mp h2
        refine ⟨le_refl k, ?_⟩
        simp [evBatch]
    · obtain ⟨h1, h2⟩ := ih (k + 1) e h
      constructor
      · omega
      · simp only [List.length_cons]
        omega

/-- C2 counterexample: for 8 parallelism units and the admissible capacity
fraction 1/10, `Scraper.scrape`'s `max_processes` floors to 0 — not "at
least 1" — and the batching loop then raises (`range` step zero) instead of
scheduling anything. -/
theorem scheduler_counterexample :
    (0 : ℚ) < 1/10 ∧ (1/10 : ℚ) ≤ 1 ∧ max_processes 8 (1/10) = 0
    ∧ scrape_stage_batches (List.range 10) (max_processes 8 (1/10)).toNat =
        .error .valueError := by
  refine ⟨by norm_num, by norm_num, by decide, by decide⟩

/-- C2 (amended): `max_processes` is exactly `floor(cpuCount ×
capacityFraction)` with no lower clamp (`ValueError` when it is zero); for a
positive worker count the keys are partitioned into consecutive nonempty
batches of that size with only the last shorter — 10 keys at 4 workers give
sizes [4, 4, 2] — and in the scheduler's event trace every event of batch
`k` (the joins included) precedes every event of batch `k + 1` (the starts
included). -/
theorem scheduler_contract :
    (∀ (cpu : ℕ) (f : ℚ), max_processes cpu f = ⌊(cpu : ℚ) * f⌋)
    ∧ max_processes 8 (1/2) = 4
    ∧ (∀ tickers : List ℕ, scrape_stage_batches tickers 0 = .error .valueError)
    ∧ (∀ (α : Type) (tickers : List α) (m : ℕ) (B : List (List α)), m ≠ 0 →
        scrape_stage_batches tickers m = .ok B →
        B.flatten = tickers
        ∧ (∀ b ∈ B, b.length ≤ m ∧ b ≠ [])
        ∧ (∀ (i : ℕ) (bi : List α), B.get? i = some bi → i + 1 < B.length → bi.length = m))
    ∧ Except.map (List.map List.length) (scrape_stage_batches (List.range 10) 4) = .ok [4, 4, 2]
    ∧ (∀ (α : Type) (tickers : List α) (m k : ℕ),
        ∃ pre post, schedTrace tickers m = pre ++ post
          ∧ (∀ e ∈ pre, evBatch e ≤ k) ∧ (∀ e ∈ post, k < evBatch e)) := by
  refine ⟨fun cpu f => rfl, by decide, fun tickers => rfl, ?_, by decide, ?_⟩
  · intro α tickers m B hm hok
    rw [scrape_stage_batches, if_neg hm] at hok
    have hB : B = chunkAux m tickers.length tickers := by
      have h := hok
      simp at h
      exact h.symm
    subst hB
    refine ⟨chunkAux_flatten m hm tickers.length tickers (le_refl _), ?_, ?_⟩
    · intro b hb
      exact chunkAux_mem m hm tickers.length tickers b hb
    · intro i bi hget hlt
      exact chunkAux_full m hm tickers.length tickers (le_refl _) i bi hget hlt
  · intro α tickers m k
    refine ⟨schedTraceAux 0 ((chunkAux m tickers.length tickers).take (k + 1)),
            schedTraceAux (0 + ((chunkAux m tickers.length tickers).take (k + 1)).length)
              ((chunkAux m tickers.length tickers).drop (k + 1)), ?_, ?_, ?_⟩
    · rw [schedTrace, ← schedTraceAux_append, List.take_append_drop]
    · intro e he
      have hb := (schedTraceAux_mem _ _ _ he).2
      have hlen : ((chunkAux m tickers.length tickers).take (k + 1)).length ≤ k + 1 := by
        simp [List.length_take]
      omega
    · intro e he
      rcases hd : (chunkAux m tickers.length tickers).drop (k + 1) with _ | ⟨x, xs⟩
      · rw [hd] at he
        simp [schedTraceAux] at he
      · have hlt : k + 1 < (chunkAux m tickers.length tickers).length := by
          by_contra hge
          push_neg at hge
          rw [List.drop_eq_nil_of_le hge] at hd
          exact List.noConfusion hd
        have hlen : ((chunkAux m tickers.length tickers).take (k + 1)).length = k + 1 := by
          simp [List.length_take]
          omega
        have h1 := (schedTraceAux_mem _ _ _ he).1
        omega

/-- C2 witness: the amended contract applied to ten keys at four workers. -/
theorem scheduler_contract_witness :
    (chunkAux 4 (List.range 10).length (List.range 10)).flatten = List.range 10
    ∧ (∀ b ∈ chunkAux 4 (List.range 10).length (List.range 10), b.length ≤ 4 ∧ b ≠ [])
    ∧ (∀ (i : ℕ) (bi : List ℕ),
        (chunkAux 4 (List.range 10).length (List.range 10)).get? i = some bi →
        i + 1 < (chunkAux 4 (List.range 10).length (List.range 10)).length →
        bi.length = 4) :=
  scheduler_contract.2.2.2.1 ℕ (List.range 10) 4
    (chunkAux 4 (List.range 10).length (List.range 10)) (by decide) rfl

/-- Looking up in a key-preserving per-row transformation of an association
list transforms the looked-up value. -/
theorem lookup_map_assoc {β γ : Type} (g : String → β → γ) :
    ∀ (l : List (String × β)) (k : String),
      List.lookup k (l.map (fun kr => (kr.1, g kr.1 kr.2))) = (List.lookup k l).map (g k) := by
  intro l
  induction l with
  | nil => intro k; rfl
  | cons kr rest ih =>
    intro k
    rcases hbeq : k == kr.1 with _ | _
    · simp only [List.map, List.lookup, hbeq]
      exact ih k
    · have hk : k = kr.1 := eq_of_beq hbeq
      subst hk
      simp only [List.map, List.lookup, hbeq]
      rfl

/-- Filtering an association list by a key predicate that holds at `k` does
not change the lookup at `k`. -/
theorem lookup_filter_key {β : Type} (p : String → Bool) :
    ∀ (l : List (String × β)) (k : String), p k = true →
      List.lookup k (l.filter (fun fv => p fv.1)) = List.lookup k l := by
  intro l
  induction l with
  | nil => intro k hp; rfl
  | cons fv rest ih =>
    intro k hp
    rcases hbeq : k == fv.1 with _ | _
    · rcases hfv : p fv.1 with _ | _
      · rw [List.filter_cons_of_neg (by simp [hfv])]
        rw [ih k hp, List.lookup, hbeq]
      · rw [List.filter_cons_of_pos (by simp [hfv])]
        rw [List.lookup, hbeq, List.lookup, hbeq]
        exact ih k hp
    · have hk : k = fv.1 := eq_of_beq hbeq
      have hfv : p fv.1 = true := hk ▸ hp
      rw [List.filter_cons_of_pos (by simp [hfv])]
      rw [List.lookup, hbeq, List.lookup, hbeq]

/-- Lookup distributes over append, preferring the first list. -/
theorem lookup_append {β : Type} :
    ∀ (l₁ l₂ : List (String × β)) (k : String),
      List.lookup k (l₁ ++ l₂) =
        (List.lookup k l₁).orElse (fun _ => List.lookup k l₂) := by
  intro l₁
  induction l₁ with
  | nil => intro l₂ k; rfl
  | cons kr rest ih =>
    intro l₂ k
    rcases hbeq : k == kr.1 with _ | _
    · rw [List.cons_append, List.lookup, hbeq, List.lookup, hbeq]
      exact ih l₂ k
    · rw [List.cons_append, List.lookup, hbeq, List.lookup, hbeq]
      rfl

/-- A non-absent cell of the existing row survives `combine_first`. -/
theorem valueAt_combine_keep (o n : CsvRow) (f : String) (v : String)
    (h : valueAt o f = some v) : valueAt (combine_row o n) f = some v := by
  have hlk : List.lookup f o = some (some v) := by
    rw [valueAt] at h
    rcases hl : List.lookup f o with _ | c
    · rw [hl] at h
      simp [Option.join] at h
    · rw [hl] at h
      simp [Option.join] at h
      rw [h]
  rw [valueAt, combine_row, lookup_append]
  rw [lookup_map_assoc (combine_cell n) o f]
  rw [hlk]
  rfl

/-- An absent cell of the existing row is filled from the new row by
`combine_first`. -/
theorem valueAt_combine_fill (o n : CsvRow) (f : String)
    (h : valueAt o f = none) : valueAt (combine_row o n) f = valueAt n f := by
  rw [valueAt, combine_row, lookup_append]
  rw [lookup_map_assoc (combine_cell n) o f]
  rcases hl : List.lookup f o with _ | c
  · rw [lookup_filter_key (fun key => (List.lookup key o).isNone) n f (by simp [hl])]
    rw [valueAt]
    rfl
  · have hc : c = none := by
      rw [valueAt, hl] at h
      rcases c with _ | w
      · rfl
      · simp [Option.join] at h
    subst hc
    rfl

/-- C8 counterexample: in append mode, new non-absent data does not
overwrite an existing non-absent field — the merged price stays at the
existing `"5"` even though the new data carries `"9"`. -/
theorem export_append_counterexample :
    Option.map (fun r => valueAt r "price")
      (List.lookup "AAPL" (export_to_csv (some csvExisting) csvNew "append")) =
      some (some "5")
    ∧ valueAt [("price", some "9"), ("eps", some "6")] "price" = some "9" := by
  exact ⟨by decide, by decide⟩

/-- C8 (amended): `write` mode (and `append` without an existing file)
replaces the output in full; `append` mode merges by ticker key with the
existing data taking priority — an existing non-absent field is always
preserved, new non-absent data only fills fields that are absent in the
existing file, and tickers absent from the existing file are taken from the
new data. -/
theorem export_modes :
    (∀ (ex : Option (List (String × CsvRow))) (df_new : List (String × CsvRow)),
        export_to_csv ex df_new "write" = df_new)
    ∧ (∀ df_new : List (String × CsvRow), export_to_csv none df_new "append" = df_new)
    ∧ (∀ (existing df_new : List (String × CsvRow)) (k : String) (oldRow : CsvRow)
        (f v : String), List.lookup k existing = some oldRow → valueAt oldRow f = some v →
        ∃ row, List.lookup k (export_to_csv (some existing) df_new "append") = some row
          ∧ valueAt row f = some v)
    ∧ (∀ (existing df_new : List (String × CsvRow)) (k : String) (oldRow newRow : CsvRow)
        (f : String), List.lookup k existing = some oldRow →
        List.lookup k df_new = some newRow → valueAt oldRow f = none →
        ∃ row, List.lookup k (export_to_csv (some existing) df_new "append") = some row
          ∧ valueAt row f = valueAt newRow f)
    ∧ (∀ (existing df_new : List (String × CsvRow)) (k : String),
        List.lookup k existing = none →
        List.lookup k (export_to_csv (some existing) df_new "append") =
          List.lookup k df_new) := by
  have hmap : ∀ (existing df_new : List (String × CsvRow)) (k : String),
      List.lookup k (export_to_csv (some existing) df_new "append") =
        ((List.lookup k existing).map (merge_entry df_new k)).orElse
          (fun _ => List.lookup k (df_new.filter
            (fun kr => (List.lookup kr.1 existing).isNone))) := by
    intro existing df_new k
    show List.lookup k (export_append_merge existing df_new) = _
    rw [export_append_merge, lookup_append, lookup_map_assoc (merge_entry df_new)]
  refine ⟨?_, fun df_new => rfl, ?_, ?_, ?_⟩
  · intro ex df_new
    rcases ex with _ | ex <;> rfl
  · intro existing df_new k oldRow f v hlk hval
    refine ⟨merge_entry df_new k oldRow, ?_, ?_⟩
    · rw [hmap, hlk]
      rfl
    · rw [merge_entry]
      rcases List.lookup k df_new with _ | nr
      · exact hval
      · exact valueAt_combine_keep oldRow nr f v hval
  · intro existing df_new k oldRow newRow f hlk hnew hval
    refine ⟨merge_entry df_new k oldRow, ?_, ?_⟩
    · rw [hmap, hlk]
      rfl
    · rw [merge_entry, hnew]
      exact valueAt_combine_fill oldRow newRow f hval
  · intro existing df_new k hlk
    rw [hmap, hlk]
    show List.lookup k (df_new.filter (fun kr => (List.lookup kr.1 existing).isNone)) = _
    exact lookup_filter_key (fun key => (List.lookup key existing).isNone) df_new k
      (by simp [hlk])

/-- C8 witness: the amended merge behavior on a concrete existing file and
new data set. -/
theorem export_modes_witness :
    (∃ row, List.lookup "AAPL" (export_to_csv (some csvExisting) csvNew "append") = some row
      ∧ valueAt row "price" = some "5")
    ∧ (∃ row, List.lookup "AAPL" (export_to_csv (some csvExisting) csvNew "append") = some row
      ∧ valueAt row "eps" = valueAt [("price", some "9"), ("eps", some "6")] "eps")
    ∧ List.lookup "MSFT" (export_to_csv (some csvExisting) csvNew "append") =
        List.lookup "MSFT" csvNew :=
  ⟨export_modes.2.2.1 csvExisting csvNew "AAPL" [("price", some "5"), ("eps", none)]
      "price" "5" (by decide) (by decide),
   export_modes.2.2.2.1 csvExisting csvNew "AAPL" [("price", some "5"), ("eps", none)]
      [("price", some "9"), ("eps", some "6")] "eps" (by decide) (by decide) (by decide),
   export_modes.2.2.2.2 csvExisting csvNew "MSFT" (by decide)⟩

/-- C4 counterexample: the ratio pipeline can raise — a market cap cell with
no magnitude suffix passes through `abbr_to_number` as a raw string, the
truthiness guard at the price-to-cash-flow computation accepts it, and the
division raises `TypeError`, which propagates out of `Analyzer.analyze`. -/
theorem division_guards_counterexample :
    ptcf_calc (some (.inr "123")) (some (.inl 5000000)) = .error .typeError
    ∧ analyze_fund 1 strMcInput = .error .typeError := by
  exact ⟨by decide, by decide⟩

/-- C4 (amended): every ratio computation of `Analyzer.analyze` yields
absent when a required operand is absent or its denominator is zero or
absent, and never divides by zero — a value is only produced from a nonzero
denominator; on numeric or absent operands no exception path exists,
but a raw-string passthrough operand from `abbr_to_number` raises a type
error at the division. -/
theorem division_guards :
    (∀ mc : Option (ℚ ⊕ String), ptcf_calc mc none = .ok none)
    ∧ (∀ ocf : Option (ℚ ⊕ String), ptcf_calc none ocf = .ok none)
    ∧ (∀ mc : Option (ℚ ⊕ String), ptcf_calc mc (some (.inl 0)) = .ok none)
    ∧ (∀ m o : ℚ, ptcf_calc (some (.inl m)) (some (.inl o)) = .ok none ∨
        (o ≠ 0 ∧ ptcf_calc (some (.inl m)) (some (.inl o)) = .ok (some (fmtRound2 (m / o)))))
    ∧ (∀ ca inv, quick_ratio_calc ca none inv = none)
    ∧ (∀ ca inv, quick_ratio_calc ca (some 0) inv = none)
    ∧ (∀ cl inv, quick_ratio_calc none cl inv = none)
    ∧ (∀ ca cl, quick_ratio_calc ca cl none = none)
    ∧ (∀ ca cl inv, quick_ratio_calc ca cl inv = none ∨
        ∃ c l i, ca = some c ∧ cl = some l ∧ inv = some i ∧ l ≠ 0 ∧
          quick_ratio_calc ca cl inv = some (fmtRound2 ((c - i) / l)))
    ∧ (∀ e, interest_coverage_calc e none = none)
    ∧ (∀ e, interest_coverage_calc e (some 0) = none)
    ∧ (∀ i, interest_coverage_calc none i = none)
    ∧ (∀ d, debt_to_equity_calc d none = none)
    ∧ (∀ d, debt_to_equity_calc d (some 0) = none)
    ∧ (∀ s, debt_to_equity_calc none s = none)
    ∧ (∀ e t, roic_calc e t none = none)
    ∧ (∀ e t, roic_calc e t (some 0) = none)
    ∧ (∀ t ic, roic_calc none t ic = none)
    ∧ (∀ e ic, roic_calc e none ic = none)
    ∧ (∀ pb mc, ptb_fb pb mc none = .ok pb)
    ∧ (∀ pb mc, ptb_fb pb mc (some 0) = .ok pb)
    ∧ (∀ pb t, ptb_fb pb none t = .ok pb)
    ∧ (∀ ps mc, pts_fb ps mc none = .ok ps)
    ∧ (∀ ps mc, pts_fb ps mc (some 0) = .ok ps)
    ∧ (∀ ps t, pts_fb ps none t = .ok ps)
    ∧ (∀ pe mc, pte_fb pe mc none = .ok pe)
    ∧ (∀ pe mc, pte_fb pe mc (some 0) = .ok pe)
    ∧ (∀ pe n, pte_fb pe none n = .ok pe)
    ∧ (∀ pc mc, ptcf_fb pc mc none = .ok pc)
    ∧ (∀ pc mc, ptcf_fb pc mc (some (.inl 0)) = .ok pc)
    ∧ (∀ pc o, ptcf_fb pc none o = .ok pc)
    ∧ (∀ cr ca, cr_fb cr ca none = cr)
    ∧ (∀ cr ca, cr_fb cr ca (some 0) = cr)
    ∧ (∀ cr cl, cr_fb cr none cl = cr)
    ∧ (∀ r n, roa_fb r n none = r)
    ∧ (∀ r n, roa_fb r n (some 0) = r)
    ∧ (∀ r t, roa_fb r none t = r)
    ∧ (∀ r n, roe_fb r n none = r)
    ∧ (∀ r n, roe_fb r n (some 0) = r)
    ∧ (∀ r s, roe_fb r none s = r)
    ∧ (∀ pm n, pm_fb pm n none = pm)
    ∧ (∀ pm n, pm_fb pm n (some 0) = pm)
    ∧ (∀ pm t, pm_fb pm none t = pm) := by
  refine ⟨?_, ?_, ?_, ?_, ?_, ?_, ?_, ?_, ?_, ?_, ?_, ?_, ?_, ?_, ?_, ?_, ?_, ?_, ?_,
         ?_, ?_, ?_, ?_, ?_, ?_, ?_, ?_, ?_, ?_, ?_, ?_, ?_, ?_, ?_, ?_, ?_, ?_, ?_,
         ?_, ?_, ?_, ?_, ?_⟩
  · intro mc
    rcases mc with _ | ⟨q | r⟩ <;> simp [ptcf_calc, truthyU]
  · intro ocf
    rcases ocf with _ | ⟨q | r⟩ <;> simp [ptcf_calc, truthyU]
  · intro mc
    rcases mc with _ | ⟨q | r⟩ <;> simp [ptcf_calc, truthyU, neqZeroU]
  · intro m o
    by_cases hm : m = 0
    · left
      subst hm
      simp [ptcf_calc, truthyU]
    · by_cases ho : o = 0
      · left
        subst ho
        simp [ptcf_calc, truthyU]
      · right
        exact ⟨ho, by simp [ptcf_calc, truthyU, neqZeroU, hm, ho]⟩
  · intro ca inv
    rcases ca with _ | c <;> rcases inv with _ | i <;> rfl
  · intro ca inv
    rcases ca with _ | c <;> rcases inv with _ | i <;> simp [quick_ratio_calc]
  · intro cl inv
    rcases cl with _ | l <;> rcases inv with _ | i <;> rfl
  · intro ca cl
    rcases ca with _ | c <;> rcases cl with _ | l <;> rfl
  · intro ca cl inv
    rcases ca with _ | c
    · left
      rcases cl with _ | l <;> rcases inv with _ | i <;> rfl
    · rcases cl with _ | l
      · left
        rcases inv with _ | i <;> rfl
      · rcases inv with _ | i
        · left
          rfl
        · by_cases hl : l = 0
          · left
            simp [quick_ratio_calc, hl]
          · right
            exact ⟨c, l, i, rfl, rfl, rfl, hl, by simp [quick_ratio_calc, hl]⟩
  · intro e
    rcases e with _ | e <;> rfl
  · intro e
    rcases e with _ | e <;> simp [interest_coverage_calc]
  · intro i
    rcases i with _ | i <;> rfl
  · intro d
    rcases d with _ | d <;> rfl
  · intro d
    rcases d with _ | d <;> simp [debt_to_equity_calc]
  · intro s
    rcases s with _ | s <;> rfl
  · intro e t
    rcases e with _ | e <;> rcases t with _ | t <;> rfl
  · intro e t
    rcases e with _ | e <;> rcases t with _ | t <;> simp [roic_calc]
  · intro t ic
    rcases t with _ | t <;> rcases ic with _ | ic <;> rfl
  · intro e ic
    rcases e with _ | e <;> rcases ic with _ | ic <;> rfl
  · intro pb mc
    rcases pb with _ | pb <;> rcases mc with _ | ⟨q | r⟩ <;> rfl
  · intro pb mc
    rcases pb with _ | pb <;> rcases mc with _ | ⟨q | r⟩ <;> simp [ptb_fb]
  · intro pb t
    rcases pb with _ | pb <;> rcases t with _ | t <;> rfl
  · intro ps mc
    rcases ps with _ | ps <;> rcases mc with _ | ⟨q | r⟩ <;> rfl
  · intro ps mc
    rcases ps with _ | ps <;> rcases mc with _ | ⟨q | r⟩ <;> simp [pts_fb]
  · intro ps t
    rcases ps with _ | ps <;> rcases t with _ | t <;> rfl
  · intro pe mc
    rcases pe with _ | pe <;> rcases mc with _ | ⟨q | r⟩ <;> rfl
  · intro pe mc
    rcases pe with _ | pe <;> rcases mc with _ | ⟨q | r⟩ <;> simp [pte_fb]
  · intro pe n
    rcases pe with _ | pe <;> rcases n with _ | n <;> rfl
  · intro pc mc
    rcases pc with _ | pc <;> rcases mc with _ | ⟨q | r⟩ <;> rfl
  · intro pc mc
    rcases pc with _ | pc <;> rcases mc with _ | ⟨q | r⟩ <;> simp [ptcf_fb]
  · intro pc o
    rcases pc with _ | pc <;> rcases o with _ | ⟨q | r⟩ <;> rfl
  · intro cr ca
    rcases cr with _ | cr <;> rcases ca with _ | ca <;> rfl
  · intro cr ca
    rcases cr with _ | cr <;> rcases ca with _ | ca <;> simp [cr_fb]
  · intro cr cl
    rcases cr with _ | cr <;> rcases cl with _ | cl <;> rfl
  · intro r n
    rcases r with _ | r <;> rcases n with _ | n <;> rfl
  · intro r n
    rcases r with _ | r <;> rcases n with _ | n <;> simp [roa_fb]
  · intro r t
    rcases r with _ | r <;> rcases t with _ | t <;> rfl
  · intro r n
    rcases r with _ | r <;> rcases n with _ | n <;> rfl
  · intro r n
    rcases r with _ | r <;> rcases n with _ | n <;> simp [roe_fb]
  · intro r s
    rcases r with _ | r <;> rcases s with _ | s <;> rfl
  · intro pm n
    rcases pm with _ | s
    · rcases n with _ | n <;> rfl
    · by_cases hs : s = "0.00%"
      · subst hs
        rcases n with _ | n <;> rfl
      · exact pm_fb_other s hs n none
  · intro pm n
    rcases pm with _ | s
    · rcases n with _ | n <;> rfl
    · by_cases hs : s = "0.00%"
      · subst hs
        rcases n with _ | n <;> simp [pm_fb]
      · exact pm_fb_other s hs n (some 0)
  · intro pm t
    rcases pm with _ | s
    · rcases t with _ | t <;> rfl
    · by_cases hs : s = "0.00%"
      · subst hs
        rcases t with _ | t <;> rfl
      · rcases t with _ | t
        · exact pm_fb_other s hs none none
        · exact pm_fb_other s hs none (some t)

/-- C1 (counterexample to the original claim): on `pmInput` the statistics
highlights resolve the profit margin to the non-absent literal `"0.00%"`,
yet the published record carries `"50.0%"` — the fallback of
`Analyzer.analyze` (lines 1585-1588) fires on the equality
`profit_margin == "0.00%"`, so it recomputed and overwrote a field that
already held a non-absent value. -/
theorem set_once_counterexample :
    search_parameter pmInput.df_statistics_highlights ["Profit Margin"] 1 0
      = .ok (some "0.00%")
    ∧ (analyze_fund 1 pmInput).map (fun r => r.profit_margin) = .ok (some "50.0%")
    ∧ ("0.00%" : String) ≠ "50.0%" :=
  ⟨by decide, by decide, by decide⟩

/-- C1 (amended): set-once cascade invariant of the detailed branch of
`Analyzer.analyze` — for every derived field except profit margin, once the
primary (statistics-page) search yields a non-absent value, no later cascade
stage changes it; for profit margin the same holds only when the resolved
value differs from the literal `"0.00%"`: the fallback trigger (line 1585)
is the equality `profit_margin == "0.00%"`, so that one resolved value is
recomputed, while an absent profit margin never is — even when net income
and total revenue are available.  The last two conjuncts state set-once for
the price-to-cash-flow and operating-cash-flow cascade stages themselves. -/
theorem set_once_cascade (period : ℕ) (inp : FundInput) (rec : FundRecord)
    (hsum : tblAbsent inp.df_summary = false)
    (hval : tblAbsent inp.df_statistics_valuations = false)
    (h : analyze_fund period inp = .ok rec) :
    (∀ s, search_parameter inp.df_statistics_valuations ["Price/Book"] period 0
        = .ok (some s) → rec.price_to_book = some s)
    ∧ (∀ s, search_parameter inp.df_statistics_valuations ["Price/Sales"] period 0
        = .ok (some s) → rec.price_to_sales = some s)
    ∧ (∀ s, search_parameter inp.df_statistics_valuations ["Trailing P/E"] period 0
        = .ok (some s) → rec.price_to_earnings = some s)
    ∧ (∀ s, search_parameter inp.df_statistics_highlights ["Diluted EPS"] 1 0
        = .ok (some s) → rec.diluted_eps = some s)
    ∧ (∀ s, search_parameter inp.df_statistics_highlights ["Current Ratio"] 1 0
        = .ok (some s) → rec.current_ratio = some s)
    ∧ (∀ s, search_parameter inp.df_statistics_highlights ["Return on Assets"] 1 0
        = .ok (some s) → rec.return_on_assets = some s)
    ∧ (∀ s, search_parameter inp.df_statistics_highlights ["Return on Equity"] 1 0
        = .ok (some s) → rec.return_on_equity = some s)
    ∧ (∀ s, search_parameter inp.df_statistics_highlights ["Profit Margin"] 1 0
        = .ok (some s) → s ≠ "0.00%" → rec.profit_margin = some s)
    ∧ (search_parameter inp.df_statistics_highlights ["Profit Margin"] 1 0
        = .ok none → rec.profit_margin = none)
    ∧ (∀ (s : String) (mc o : Option (ℚ ⊕ String)),
        ptcf_fb (some s) mc o = .ok (some s))
    ∧ (∀ (u : ℚ ⊕ String) (df : Option Table) (p : ℕ),
        ocf_fallback_step df p (some u) = .ok (some u)) := by
  simp only [analyze_fund, hsum, hval, Bool.false_eq_true, if_false] at h
  obtain ⟨v, hv, hrec⟩ := mapOk h
  subst hrec
  obtain ⟨ide, ipb, ips, ipe, icr, iroa, iroe, ipm, igrow, idef, iocf,
    iptb, ipts, ipte, iptcf⟩ := gatherPhase_ok_inv hv
  refine ⟨?_, ?_, ?_, ?_, ?_, ?_, ?_, ?_, ?_, ?_, ?_⟩
  · intro s hs
    have h0 : v.price_to_book0 = some s := by simpa using ipb.symm.trans hs
    rw [h0, ptb_fb_primary] at iptb
    have h1 : v.price_to_book = some s := by simpa using iptb.symm
    show set_norm v.price_to_book = some s
    rw [h1]; exact search_ok_set_norm hs
  · intro s hs
    have h0 : v.price_to_sales0 = some s := by simpa using ips.symm.trans hs
    rw [h0, pts_fb_primary] at ipts
    have h1 : v.price_to_sales = some s := by simpa using ipts.symm
    show set_norm v.price_to_sales = some s
    rw [h1]; exact search_ok_set_norm hs
  · intro s hs
    have h0 : v.price_to_earnings0 = some s := by simpa using ipe.symm.trans hs
    rw [h0, pte_fb_primary] at ipte
    have h1 : v.price_to_earnings = some s := by simpa using ipte.symm
    show set_norm v.price_to_earnings = some s
    rw [h1]; exact search_ok_set_norm hs
  · intro s hs
    have h0 : v.diluted_eps0 = some s := by simpa using ide.symm.trans hs
    rw [h0, de_step_primary] at idef
    have h1 : v.diluted_eps = some s := by simpa using idef.symm
    show set_norm v.diluted_eps = some s
    rw [h1]; exact search_ok_set_norm hs
  · intro s hs
    have h0 : v.current_ratio0 = some s := by simpa using icr.symm.trans hs
    show set_norm (cr_fb v.current_ratio0 v.current_assets v.current_liabilities) = some s
    rw [h0, cr_fb_primary]; exact search_ok_set_norm hs
  · intro s hs
    have h0 : v.return_on_assets0 = some s := by simpa using iroa.symm.trans hs
    show set_norm (roa_fb v.return_on_assets0 v.net_income v.total_assets) = some s
    rw [h0, roa_fb_primary]; exact search_ok_set_norm hs
  · intro s hs
    have h0 : v.return_on_equity0 = some s := by simpa using iroe.symm.trans hs
    show set_norm (roe_fb v.return_on_equity0 v.net_income v.stockholders_equity) = some s
    rw [h0, roe_fb_primary]; exact search_ok_set_norm hs
  · intro s hs hns
    have h0 : v.profit_margin0 = some s := by simpa using ipm.symm.trans hs
    show set_norm (pm_fb v.profit_margin0 v.net_income v.total_revenue) = some s
    rw [h0, pm_fb_other s hns]; exact search_ok_set_norm hs
  · intro hs
    have h0 : v.profit_margin0 = none := by simpa using ipm.symm.trans hs
    show set_norm (pm_fb v.profit_margin0 v.net_income v.total_revenue) = none
    rw [h0, pm_fb_none]; rfl
  · exact fun s mc o => ptcf_fb_primary s mc o
  · exact fun u df p => ocf_step_primary df p u

/-- C1 witness: on `wInput` the resolved price-to-book `"3.5"`, current
ratio `"1.9"` and profit margin `"12.5%"` all survive the cascade
unchanged. -/
theorem set_once_cascade_witness :
    (analyze_fund 1 wInput).map
        (fun r => (r.price_to_book, r.current_ratio, r.profit_margin))
      = .ok (some "3.5", some "1.9", some "12.5%") := by
  rcases h : analyze_fund 1 wInput with e | rec
  · have hko : (analyze_fund 1 wInput).map (fun r => r.latest_10K)
        = .ok (some "KX") := by decide
    rw [h] at hko
    simp [Except.map] at hko
  · have hc := set_once_cascade 1 wInput rec (by decide) (by decide) h
    have h1 := hc.1 "3.5" (by decide)
    have h2 := hc.2.2.2.2.1 "1.9" (by decide)
    have h3 := hc.2.2.2.2.2.2.2.1 "12.5%" (by decide) (by decide)
    simp [Except.map, h1, h2, h3]

/-- The five-column run publishes exactly `offsetRecord`. -/
theorem recFive_eq : recFromVals 1 fiveColVals = offsetRecord := by
  have hg : growth_guard fiveColVals.total_revenue fiveColVals.total_revenue_prev
      fiveColVals.total_revenue_period = some "100.0%" := gg813
  simp only [recFromVals]
  rw [hg]
  decide

/-- The four-column run publishes exactly `offsetRecord` as well. -/
theorem recFour_eq : recFromVals 1 fourColVals = offsetRecord := by
  have hg : growth_guard fourColVals.total_revenue fourColVals.total_revenue_prev
      fourColVals.total_revenue_period = some "100.0%" := gg822
  simp only [recFromVals]
  rw [hg]
  decide

/-- The five-column and four-column analyzer runs produce identical
records, although they used different growth offsets. -/
theorem analyze_runs_eq : analyze_fund 1 fiveColInput = analyze_fund 1 fourColInput := by
  have e5 : analyze_fund 1 fiveColInput
      = (gatherPhase 1 fiveColInput).map (recFromVals 1) := rfl
  have e4 : analyze_fund 1 fourColInput
      = (gatherPhase 1 fourColInput).map (recFromVals 1) := rfl
  have h5 : gatherPhase 1 fiveColInput = .ok fiveColVals := by decide
  have h4 : gatherPhase 1 fourColInput = .ok fourColVals := by decide
  rw [e5, e4, h5, h4]
  show Except.ok (recFromVals 1 fiveColVals) = Except.ok (recFromVals 1 fourColVals)
  rw [recFive_eq, recFour_eq]

/-- C6 (counterexample to the original claim): the five-column run chose the
3-year offset, the four-column run fell back to the 2-year offset, yet the
two runs publish identical entity records — the chosen offset is only a
local variable (`FiScrape_Core.py`, lines 1353-1437) that reaches the log,
never the record. -/
theorem fallback_offset_counterexample :
    revenue_offset_used 1 fiveColInput = .ok 3
    ∧ revenue_offset_used 1 fourColInput = .ok 2
    ∧ analyze_fund 1 fiveColInput = analyze_fund 1 fourColInput :=
  ⟨by decide, by decide, analyze_runs_eq⟩

/-- C6 (amended): when the column-5 probe of a growth block raises
`IndexError` while the period column and column 4 resolve and parse, the
block falls back to the 2-year-offset comparison — but the offset that was
used is not recorded on the entity record: two runs that used different
offsets can publish identical records. -/
theorem fallback_offset (df : Option Table) (label : String) (period : ℕ)
    (c p4 : Option String) (cv pv : Option ℚ)
    (hc : search_parameter df [label] period 0 = .ok c)
    (hcv : join_comma c = .ok cv)
    (h5 : search_parameter df [label] 5 0 = .error .indexError)
    (hp : search_parameter df [label] 4 0 = .ok p4)
    (hpv : join_comma p4 = .ok pv) :
    growth_block df label period = .ok (cv, pv, 2)
    ∧ ∃ inp5 inp4 : FundInput,
        revenue_offset_used 1 inp5 = .ok 3
        ∧ revenue_offset_used 1 inp4 = .ok 2
        ∧ analyze_fund 1 inp5 = analyze_fund 1 inp4 := by
  constructor
  · simp only [growth_block, Bind.bind, Except.bind, hc, hcv, h5, hp, hpv,
      pure, Except.pure]
  · exact ⟨fiveColInput, fourColInput, by decide, by decide, analyze_runs_eq⟩

/-- C6 witness: on the four-column income statement the total-revenue block
returns current 8, previous 2 at the 2-year offset. -/
theorem fallback_offset_witness :
    growth_block fourColInput.df_income_statement "Total Revenue" 1
      = .ok (some 8, some 2, 2) :=
  (fallback_offset fourColInput.df_income_statement "Total Revenue" 1
    (some "8") (some "2") (some 8) (some 2) (by decide) (by decide)
    (by decide) (by decide) (by decide)).1
